import Mathlib

/-!
Shallow embedding of the mobilespec structural consistency validation engine
(TypeScript sources under src/: validate/l2.ts, validate/l3.ts, validate/l4.ts,
validate/i18n.ts, validate/schema.ts, validate/index.ts, openapiCheck.ts,
bin/cli.ts, validate/keys.ts, validate/diagnostics.ts, lib/formatUnused.ts),
together with theorems settling the frozen claims about the specification.

Modelling conventions:
- JavaScript `Map` and `Set` are modelled as association lists / lists that
  preserve insertion order, matching JS iteration-order semantics
  (`Map.set` updates in place for an existing key, appends otherwise).
- JavaScript string primitives are re-implemented structurally over `List Char`
  so that concrete runs reduce inside the kernel; `localeCompare` is modelled
  as code-point comparison.
- Duck typing is narrowed to structured input types that record exactly the
  alternatives the TypeScript code distinguishes with `typeof` checks; a field
  that the code reads with `typeof x === 'string' ? x : undefined` becomes
  `Option String`, and JS truthiness on strings is `strTruthy` below.
- File-system and AJV interaction (the external document loader and the
  external structural schema validator) are inputs: each modelled file carries
  the verdict the external validator returned for it.
-/

namespace MobileSpec

/-! ### JavaScript string primitives, re-implemented structurally -/

/-- Lexicographic code-point comparison of char lists (strict less-than). -/
def lexLtChars : List Char → List Char → Bool
  | [], [] => false
  | [], _ :: _ => true
  | _ :: _, [] => false
  | a :: as, b :: bs =>
    if a.toNat < b.toNat then true
    else if b.toNat < a.toNat then false
    else lexLtChars as bs

/-- Strict string comparison; models the ordering underlying `localeCompare`
as code-point order. -/
def strLtB (a b : String) : Bool := lexLtChars a.data b.data

/-- Non-strict string comparison used as a sort predicate. -/
def strLeB (a b : String) : Bool := !(strLtB b a)

/-- ASCII whitespace test used by the `trim` model. -/
def isJsWs (c : Char) : Bool := c.toNat == 32 || (9 ≤ c.toNat && c.toNat ≤ 13)

/-- Models JS `String.prototype.trim` (ASCII whitespace suffices here). -/
def jsTrim (s : String) : String :=
  ⟨((s.data.dropWhile isJsWs).reverse.dropWhile isJsWs).reverse⟩

/-- Models JS `String.prototype.toLowerCase` for the ASCII range
(HTTP method names are ASCII). -/
def jsToLower (s : String) : String :=
  ⟨s.data.map fun c => if 65 ≤ c.toNat && c.toNat ≤ 90 then Char.ofNat (c.toNat + 32) else c⟩

/-- Models JS `String.prototype.toUpperCase` for the ASCII range. -/
def jsToUpper (s : String) : String :=
  ⟨s.data.map fun c => if 97 ≤ c.toNat && c.toNat ≤ 122 then Char.ofNat (c.toNat - 32) else c⟩

/-- Char-list prefix test. -/
def charsIsPrefix : List Char → List Char → Bool
  | [], _ => true
  | _ :: _, [] => false
  | p :: ps, c :: cs => p == c && charsIsPrefix ps cs

/-- Models JS `String.prototype.startsWith`. -/
def jsStartsWith (s pre : String) : Bool := charsIsPrefix pre.data s.data

/-- Substring test on char lists. -/
def charsContains (hay needle : List Char) : Bool :=
  match hay with
  | [] => charsIsPrefix needle []
  | _ :: rest => charsIsPrefix needle hay || charsContains rest needle

/-- Models JS `String.prototype.includes`. -/
def jsIncludes (s sub : String) : Bool := charsContains s.data sub.data

/-- Helper for `jsSplitChar`: splits a char list at every occurrence of `sep`. -/
def splitCharAux (sep : Char) : List Char → List Char → List (List Char)
  | [], acc => [acc.reverse]
  | c :: cs, acc =>
    if c == sep then acc.reverse :: splitCharAux sep cs []
    else splitCharAux sep cs (c :: acc)

/-- Models JS `String.prototype.split` with a one-character separator (the
only separators the source uses are `'/'` and `' '`). -/
def jsSplitChar (s : String) (sep : Char) : List String :=
  (splitCharAux sep s.data []).map fun cs => ⟨cs⟩

/-- Helper for `jsReplacePair`: replaces every occurrence of the two-char
pattern `a b` by the single char `r`. -/
def replacePairAux (a b r : Char) : List Char → List Char
  | [] => []
  | [c] => [c]
  | c1 :: c2 :: cs =>
    if c1 == a && c2 == b then r :: replacePairAux a b r cs
    else c1 :: replacePairAux a b r (c2 :: cs)

/-- Models the global-regex `String.prototype.replace` for the two-character
patterns `~1` and `~0` used by `decodeJsonPointerToken`. -/
def jsReplacePair (s : String) (a b r : Char) : String :=
  ⟨replacePairAux a b r s.data⟩

/-- Decimal digit test, models the regex class `\d`. -/
def isDigitChar (c : Char) : Bool := 48 ≤ c.toNat && c.toNat ≤ 57

/-- Models the regex `^\d{3}$` on HTTP status-code keys. -/
def isThreeDigits (s : String) : Bool := s.data.length == 3 && s.data.all isDigitChar

/-- Numeric value of a digit string (used to model `Number(code)` for the
three-digit status codes that passed `isThreeDigits`). -/
def digitsToNat (s : String) : Nat :=
  s.data.foldl (fun n c => n * 10 + (c.toNat - 48)) 0

/-- Decimal rendering of a `Nat`, structural so concrete runs reduce. -/
def natDigitsAux : Nat → Nat → List Char
  | 0, _ => []
  | fuel + 1, n =>
    if n < 10 then [Char.ofNat (48 + n)]
    else natDigitsAux fuel (n / 10) ++ [Char.ofNat (48 + n % 10)]

/-- Decimal rendering of a `Nat` (models JS number-to-string for counts). -/
def natToStr (n : Nat) : String := ⟨natDigitsAux (n + 1) n⟩

/-- Stable insertion of an element into a list sorted by `le`; together with
`sortBy` this models the stable JS `Array.prototype.sort`. -/
def insertSorted (le : α → α → Bool) (a : α) : List α → List α
  | [] => [a]
  | b :: bs => if le b a then b :: insertSorted le a bs else a :: b :: bs

/-- Stable sort (insertion sort). JS `Array.prototype.sort` with a total
comparator is stable; stable sorts agree, so this models it faithfully. -/
def sortBy (le : α → α → Bool) : List α → List α
  | [] => []
  | a :: as => insertSorted le a (sortBy le as)

/-- Models `array.join(sep)`. -/
def joinSep (sep : String) : List String → String
  | [] => ""
  | [s] => s
  | s :: rest => s ++ sep ++ joinSep sep rest

/-! ### Insertion-ordered maps and sets (JS `Map` / `Set`) -/

/-- Key lookup in an insertion-ordered association list (JS `Map.get`). -/
def mapGet? (m : List (String × α)) (k : String) : Option α :=
  (m.find? fun p => p.1 == k).map fun p => p.2

/-- Key presence (JS `Map.has`). -/
def mapHas (m : List (String × α)) (k : String) : Bool :=
  m.any fun p => p.1 == k

/-- JS `Map.set`: replaces in place when the key exists (keeping its
position), appends otherwise. -/
def mapSet (m : List (String × α)) (k : String) (v : α) : List (String × α) :=
  if mapHas m k then m.map fun p => if p.1 == k then (k, v) else p
  else m ++ [(k, v)]

/-- JS `Set.add`: appends when absent, keeps insertion order. -/
def setAdd (s : List String) (k : String) : List String :=
  if s.contains k then s else s ++ [k]

/-! ### Diagnostics (src/types/diagnostic.ts, src/validate/diagnostics.ts) -/

/-- Diagnostic severity. The current `DiagnosticLevel` union in
src/types/diagnostic.ts is `'error' | 'warning' | 'info'`. -/
inductive DiagnosticLevel where
  | error
  | warning
  | info
deriving DecidableEq, Repr

/-- Structured metadata value appearing in a diagnostic `meta` record. -/
inductive MetaVal where
  | str (s : String)
  | ostr (s : Option String)
  | nat (n : Nat)
  | strs (ss : List String)
  | pairs (ps : List (String × List String))
deriving DecidableEq, Repr

/-- Structured diagnostic: `(code, level, message, meta)`; a missing `meta`
record is the empty list. -/
structure Diagnostic where
  code : String
  level : DiagnosticLevel
  message : String
  meta : List (String × MetaVal) := []
deriving DecidableEq, Repr

/-! ### Screen keys (src/validate/keys.ts) -/

/-- JS truthiness of an optional string: present and non-empty. -/
def strTruthy : Option String → Bool
  | some s => s ≠ ""
  | none => false

/-- Composite screen key; the source is
`context ? id + '__' + context : id` (string truthiness). -/
def screenKey (id : String) (context : Option String) : String :=
  if strTruthy context then id ++ "__" ++ context.getD "" else id

/-- Display form of a screen identity; the source is
`context ? id + '[' + context + ']' : id`. -/
def displayId (id : String) (context : Option String) : String :=
  if strTruthy context then id ++ "[" ++ context.getD "" ++ "]" else id

/-! ### Input documents (the YAML files after parsing)

Each file carries the verdict the external AJV schema validator produced for
it (`ajvErrors`: a list of `(instancePath, message)` pairs, empty when the
document is schema-valid); schema compilation itself is out of scope. -/

/-- One transition entry of a navigation (L2) document. The validator reads
`id`, `target` and `targetContext`; `trigger`, `guard` and `elseFlag` are
present in the documents and are read only by the spec-modelled choice policy
at the end of this development. -/
structure NavTransitionDoc where
  id : String
  target : String
  targetContext : Option String
  trigger : Option String := none
  guard : Option String := none
  elseFlag : Bool := false
deriving DecidableEq, Repr

/-- The `screen` object of a navigation (L2) document. `kind` models the
`type` field (`'screen' | 'choice'`), which the validator under src/ never
reads. `entry`/`exit` model the strict `=== true` checks. -/
structure NavScreenDoc where
  id : String
  name : String
  context : Option String := none
  entry : Bool := false
  exit : Bool := false
  kind : Option String := none
  transitions : List NavTransitionDoc := []
deriving DecidableEq, Repr

/-- A loaded `*.flow.yaml` file: path, directory-derived group, external
schema verdict, and the optional `screen` object. -/
structure NavFile where
  path : String
  group : String
  ajvErrors : List (String × String) := []
  screen : Option NavScreenDoc
deriving DecidableEq, Repr

/-! ### Diagnostic constructors (src/validate/diagnostics.ts) -/

/-- Diagnostic for a missing schema file; code depends on the layer label. -/
def schemaNotFound (label : String) (schemaPath : String) : Diagnostic :=
  { code := label ++ "_SCHEMA_NOT_FOUND"
    level := .error
    message := "スキーマファイルが見つかりません: " ++ schemaPath
    meta := [("label", .str label), ("schemaPath", .str schemaPath)] }

/-- Diagnostic for a schema violation reported by the external validator. -/
def schemaError (label filePath instancePath message : String) : Diagnostic :=
  { code := label ++ "_INVALID"
    level := .error
    message := label ++ " スキーマエラー (" ++ filePath ++ "): " ++ instancePath ++ " " ++ message
    meta := [("label", .str label), ("filePath", .str filePath),
             ("instancePath", .str instancePath), ("details", .str message)] }

/-- Duplicate composite screen key (error). -/
def duplicateScreenId (key id : String) (context : Option String) : Diagnostic :=
  { code := "L2_DUPLICATE_SCREEN_ID"
    level := .error
    message := "Duplicate screen key: " ++ key ++ " (id=" ++ id ++ ", context=" ++
      context.getD "none" ++ ")"
    meta := [("key", .str key), ("id", .str id), ("context", .ostr context)] }

/-- Transition whose target id has no screen variant (error). -/
def invalidTransitionTarget (fromKey targetId transitionId : String) : Diagnostic :=
  { code := "L2_INVALID_TRANSITION_TO"
    level := .error
    message := "遷移先が存在しません: " ++ fromKey ++ " -> " ++ targetId ++
      " (transition: " ++ transitionId ++ ")"
    meta := [("fromKey", .str fromKey), ("targetId", .str targetId),
             ("transitionId", .str transitionId)] }

/-- Transition whose declared target context has no variant (error). -/
def targetContextNotFound (targetId targetContext fromKey transitionId : String) : Diagnostic :=
  { code := "L2_INVALID_TRANSITION_TO"
    level := .error
    message := "targetContext not found: " ++ targetId ++ "[" ++ targetContext ++ "] (from " ++
      fromKey ++ ", transition " ++ transitionId ++ ")"
    meta := [("targetId", .str targetId), ("targetContext", .str targetContext),
             ("fromKey", .str fromKey), ("transitionId", .str transitionId)] }

/-- Ambiguous transition target: several context variants and no declared
target context (error; the builder never picks a default variant). -/
def ambiguousTarget (targetId options fromKey transitionId : String) : Diagnostic :=
  { code := "L2_INVALID_TRANSITION_TO"
    level := .error
    message := "Ambiguous target: " ++ targetId ++ " has multiple contexts (" ++ options ++
      "). Please set transition.targetContext (from " ++ fromKey ++ ", transition " ++
      transitionId ++ ")."
    meta := [("targetId", .str targetId), ("options", .str options),
             ("fromKey", .str fromKey), ("transitionId", .str transitionId)] }

/-- UI action whose id matches no L2 transition id (error). -/
def l3ActionNotInL2 (action screenId : String) (context : Option String)
    (componentId : String) : Diagnostic :=
  { code := "L3_ACTION_NOT_IN_L2"
    level := .error
    message := "L3-L2不整合: action=\"" ++ action ++
      "\" に対応する L2 の遷移ID が存在しません (screen: " ++ displayId screenId context ++
      ", component: " ++ componentId ++ ")"
    meta := [("action", .str action), ("screenId", .str screenId),
             ("context", .ostr context), ("componentId", .str componentId)] }

/-- L2 transition never referenced from L3 (info). The source renders the
screen as `screenId ? (context ? id[ctx] : id) : '(unknown)'`. -/
def l2TransitionUnused (transitionId : String) (screenId context : Option String) : Diagnostic :=
  { code := "L2_TRANSITION_UNUSED"
    level := .info
    message := "未使用: L2 transition=\"" ++ transitionId ++
      "\" が L3 から参照されていません (from screen: " ++
      (if strTruthy screenId then displayId (screenId.getD "") context else "(unknown)") ++ ")"
    meta := [("transitionId", .str transitionId), ("screenId", .ostr screenId),
             ("context", .ostr context)] }

/-- Missing i18n key for a locale (error). -/
def i18nMissingKey (locale key : String) : Diagnostic :=
  { code := "I18N_MISSING_KEY"
    level := .error
    message := "i18n不整合: locale=\"" ++ locale ++ "\" に key=\"" ++ key ++ "\" が存在しません"
    meta := [("locale", .str locale), ("key", .str key)] }

/-- Untranslated i18n key for a non-source locale (info). -/
def i18nUntranslated (locale key : String) : Diagnostic :=
  { code := "I18N_UNTRANSLATED"
    level := .info
    message := "未翻訳: locale=\"" ++ locale ++ "\" key=\"" ++ key ++ "\" が空です"
    meta := [("locale", .str locale), ("key", .str key)] }

/-! ### Configuration (src/validate/types.ts, src/validate/config.ts)

The configuration file is loaded by an external collaborator; the loaded
configuration is an input here. -/

/-- The `openapi.path` configuration value as the pipeline discriminates it:
absent (`== null`, skips the stage), present but not a string, or a string. -/
inductive OpenapiPathVal where
  | missing
  | nonString
  | strVal (s : String)
deriving DecidableEq, Repr

/-- The `openapi` configuration entry; `checkSelectRoot` models the strict
`=== true` check already applied to the raw field. -/
structure OpenapiConfigEntry where
  path : OpenapiPathVal
  checkSelectRoot : Bool := false
deriving DecidableEq, Repr

/-- Loaded configuration, narrowed to the fields the modelled pipeline
reads (`mermaid.groupOrder` is built but unused downstream; `screenOrder`
defaults to the empty list as in `config.mermaid.screenOrder || []`). -/
structure MobileSpecConfig where
  groupOrder : List String := []
  screenOrder : List String := []
  i18nLocales : Option (List String) := none
  openapi : Option OpenapiConfigEntry := none
deriving DecidableEq, Repr

/-! ### L2 graph builder (src/validate/l2.ts, collectScreensAndTransitions) -/

/-- Screen registry entry. -/
structure Screen where
  id : String
  name : String
  group : String
  order : Nat
  entry : Bool
  exit : Bool
  context : Option String
deriving DecidableEq, Repr

/-- Directed edge of the navigation graph. -/
structure Transition where
  fromKey : String
  toKey : String
  label : String
  self : Bool
deriving DecidableEq, Repr

/-- Screen order from `config.mermaid.screenOrder`: the map holds
`index + 1` (last duplicate wins, as `Map.set` overwrites) and the lookup is
`screenOrderMap.get(id) || 99` (the stored values are ≥ 1, hence truthy). -/
def screenOrderOf (config : MobileSpecConfig) (id : String) : Nat :=
  match mapGet? (config.screenOrder.enum.foldl (fun m p => mapSet m p.2 (p.1 + 1)) []) id with
  | some n => n
  | none => 99

/-- First pass of `collectScreensAndTransitions`: collect screens, the
by-id variant lists, and duplicate-key errors in file order. -/
def collectScreensPass (config : MobileSpecConfig) :
    List NavFile → List (String × Screen) → List (String × List Screen) → List Diagnostic →
    List (String × Screen) × List (String × List Screen) × List Diagnostic
  | [], screens, variants, errs => (screens, variants, errs)
  | f :: rest, screens, variants, errs =>
    match f.screen with
    | none => collectScreensPass config rest screens variants errs
    | some sc =>
      let s : Screen :=
        { id := sc.id, name := sc.name, group := f.group, order := screenOrderOf config sc.id
          entry := sc.entry, exit := sc.exit, context := sc.context }
      let key := screenKey s.id s.context
      if mapHas screens key then
        collectScreensPass config rest screens variants
          (errs ++ [duplicateScreenId key s.id s.context])
      else
        collectScreensPass config rest (screens ++ [(key, s)])
          (mapSet variants s.id ((mapGet? variants s.id).getD [] ++ [s])) errs

/-- Resolution of one transition entry against the variant registry: either
a diagnostic (edge skipped) or a resolved edge. This is the body of the
second loop of `collectScreensAndTransitions`. -/
def resolveTransitionTarget (variants : List (String × List Screen)) (fromKey : String)
    (t : NavTransitionDoc) : Sum Diagnostic Transition :=
  let candidates := (mapGet? variants t.target).getD []
  if candidates.isEmpty then
    .inl (invalidTransitionTarget fromKey t.target t.id)
  else if strTruthy t.targetContext then
    match candidates.find? fun s => s.context == t.targetContext with
    | none => .inl (targetContextNotFound t.target (t.targetContext.getD "") fromKey t.id)
    | some hit =>
      let toKey := screenKey hit.id hit.context
      .inr { fromKey := fromKey, toKey := toKey, label := t.id, self := fromKey == toKey }
  else
    match candidates with
    | [only] =>
      let toKey := screenKey only.id only.context
      .inr { fromKey := fromKey, toKey := toKey, label := t.id, self := fromKey == toKey }
    | _ =>
      let opts := joinSep ", " (candidates.map fun s => displayId s.id s.context)
      .inl (ambiguousTarget t.target opts fromKey t.id)

/-- Projection of a resolution onto the edge list. -/
def resolvedEdge? : Sum Diagnostic Transition → Option Transition
  | .inl _ => none
  | .inr t => some t

/-- Projection of a resolution onto the error list. -/
def resolvedErr? : Sum Diagnostic Transition → Option Diagnostic
  | .inl d => some d
  | .inr _ => none

/-- The source screen key of a navigation file, as recomputed by the second
loop (`screenKey(screen.id, fromContext)`). -/
def navFromKey (sc : NavScreenDoc) : String := screenKey sc.id sc.context

/-- Result of the graph builder. -/
structure CollectResult where
  screens : List (String × Screen)
  transitions : List Transition
  errors : List Diagnostic
deriving DecidableEq, Repr

/-- The by-id variant registry after the first pass. -/
def collectVariants (files : List NavFile) (config : MobileSpecConfig) :
    List (String × List Screen) :=
  (collectScreensPass config files [] [] []).2.1

/-- The graph builder `collectScreensAndTransitions`. The second loop pushes
each transition entry to exactly one of the edge list or the error list, so
the two lists are the respective projections in document order. -/
def collectScreensAndTransitions (files : List NavFile) (config : MobileSpecConfig) :
    CollectResult :=
  let p := collectScreensPass config files [] [] []
  let screens := p.1
  let variants := collectVariants files config
  let screenErrs := p.2.2
  let edges := files.flatMap fun f =>
    match f.screen with
    | none => []
    | some sc => sc.transitions.filterMap fun t =>
        resolvedEdge? (resolveTransitionTarget variants (navFromKey sc) t)
  let transitionErrs := files.flatMap fun f =>
    match f.screen with
    | none => []
    | some sc => sc.transitions.filterMap fun t =>
        resolvedErr? (resolveTransitionTarget variants (navFromKey sc) t)
  { screens := screens, transitions := edges, errors := screenErrs ++ transitionErrs }

/-! ### Reachability (src/validate/l2.ts, validateTransitions) -/

/-- One BFS step: enqueue the not-yet-reached successors of `cur`. -/
def bfsVisit (reachable queue : List String) (nexts : List String) :
    List String × List String :=
  nexts.foldl
    (fun acc n => if acc.1.contains n then acc else (acc.1 ++ [n], acc.2 ++ [n]))
    (reachable, queue)

/-- Fuel-driven BFS worklist loop. The source loop dequeues one key per
iteration and every enqueue is guarded by first adding the key to
`reachable`, so the number of dequeues is bounded by the number of entry
keys plus the number of transitions; any fuel of at least that bound makes
this function compute the loop's exact fixpoint. -/
def bfsLoop (adj : List (String × List String)) :
    Nat → List String → List String → List String
  | 0, reachable, _ => reachable
  | _ + 1, reachable, [] => reachable
  | fuel + 1, reachable, cur :: queue =>
    let nexts := (mapGet? adj cur).getD []
    let step := bfsVisit reachable queue nexts
    bfsLoop adj fuel step.1 step.2

/-- The reachable set computed by `validateTransitions`: seed with the entry
keys (deduplicated, in order) and run the worklist loop over the outgoing
adjacency. -/
def bfsReachable (entryKeys : List String) (transitions : List Transition) : List String :=
  let seed := entryKeys.foldl
    (fun acc k => if acc.1.contains k then acc else (acc.1 ++ [k], acc.2 ++ [k]))
    (([] : List String), ([] : List String))
  let adj := transitions.foldl
    (fun m t => mapSet m t.fromKey ((mapGet? m t.fromKey).getD [] ++ [t.toKey])) []
  bfsLoop adj (entryKeys.length + transitions.length) seed.1 seed.2

/-- The `L2_INVALID` error for an empty entry set. -/
def noEntryDiag : Diagnostic :=
  { code := "L2_INVALID"
    level := .error
    message := "entry: true の screen が存在しません（起点が無いため到達可能性を定義できず実装不能）" }

/-- Reachability and outgoing-edge analysis (`validateTransitions`, current
version: entry policy, BFS reachability, dead-end notes). Sorting models
`localeCompare` as code-point order. -/
def validateTransitions (screens : List (String × Screen)) (transitions : List Transition) :
    List Diagnostic :=
  let entryKeys := (screens.filter fun p => p.2.entry).map fun p => p.1
  let entryDiags : List Diagnostic :=
    match entryKeys with
    | [] => [noEntryDiag]
    | [k] =>
      [{ code := "L2_INVALID"
         level := .info
         message := "entry screen: " ++
           (match mapGet? screens k with
            | some s => displayId s.id s.context
            | none => k)
         meta := [("entryKeys", .strs entryKeys)] }]
    | _ =>
      let entries := joinSep ", " (entryKeys.map fun k =>
        match mapGet? screens k with
        | some s => displayId s.id s.context
        | none => k)
      [{ code := "L2_INVALID"
         level := .info
         message := "entry screen が複数あります（許容）: " ++ entries
         meta := [("entryKeys", .strs entryKeys)] }]
  let reachable := bfsReachable entryKeys transitions
  let unreachable := (screens.filter fun p => !(reachable.contains p.1)).map fun p =>
    (p.1, displayId p.2.id p.2.context)
  let unreachableDiags : List Diagnostic :=
    if unreachable.isEmpty then []
    else
      let sorted := sortBy (fun a b => strLeB a.2 b.2) unreachable
      let list := joinSep "\n" (sorted.map fun u => "  - " ++ u.2 ++ " (" ++ u.1 ++ ")")
      [{ code := "L2_INVALID"
         level := .error
         message := "entry から到達不能な screen があります（実装不能）:\n" ++ list
         meta := [("count", .nat sorted.length), ("keys", .strs (sorted.map fun u => u.1))] }]
  let screensWithOutgoing := transitions.foldl (fun s t => setAdd s t.fromKey) []
  let noOutgoing := (screens.filter fun p =>
    !p.2.exit && !(screensWithOutgoing.contains p.1)).map fun p =>
    (p.1, displayId p.2.id p.2.context)
  let noOutgoingDiags : List Diagnostic :=
    if noOutgoing.isEmpty then []
    else
      let sorted := sortBy (fun a b => strLeB a.2 b.2) noOutgoing
      let list := joinSep "\n" (sorted.map fun u => "  - " ++ u.2 ++ " (" ++ u.1 ++ ")")
      [{ code := "L2_INVALID_TRANSITION_TO"
         level := .info
         message := "exit ではないのに遷移先（outgoing）が無い screen:\n" ++ list
         meta := [("count", .nat sorted.length), ("keys", .strs (sorted.map fun u => u.1))] }]
  entryDiags ++ unreachableDiags ++ noOutgoingDiags

/-! ### L3 UI layer (src/validate/l3.ts) -/

/-- A node of the UI element tree. The source walks `node.children` and, when
`node.layout` is an object, `node.layout.children`; both lists are flattened
here (an absent array behaves like an empty one). Fields read with
`typeof === 'string'` checks are `Option String`. -/
inductive UiNode where
  | node (id : Option String) (name : Option String) (action : Option String)
      (children : List UiNode) (layoutChildren : List UiNode)

/-- The `screen` object of a UI (L3) document. -/
structure UiScreenDoc where
  id : String
  context : Option String := none
  layout : Option UiNode := none

/-- A loaded `*.ui.yaml` file. -/
structure UiFile where
  path : String
  group : String
  ajvErrors : List (String × String) := []
  screen : Option UiScreenDoc

/-- A UI action extracted from the element tree. -/
structure UIAction where
  screenId : String
  context : Option String
  componentId : String
  action : String
deriving DecidableEq, Repr

/-- The guard of `getScreenInfo`: the document must have a `screen` object
whose `id` is a non-empty string. -/
def getScreenInfoUi (f : UiFile) : Option UiScreenDoc :=
  match f.screen with
  | none => none
  | some sc => if sc.id == "" then none else some sc

mutual

/-- The recursive `traverse` of `collectUIActions`: the node's own action
first (componentId falls back to `'(no-id)'` only when `id` is not a
string), then `children`, then `layout.children`. -/
def uiActionsOfNode (screenId : String) (context : Option String) : UiNode → List UIAction
  | .node id _ action children layoutChildren =>
    (match action with
     | some a => [{ screenId := screenId, context := context,
                    componentId := id.getD "(no-id)", action := a }]
     | none => []) ++
    uiActionsOfNodes screenId context children ++
    uiActionsOfNodes screenId context layoutChildren

/-- Traversal of a child list in order. -/
def uiActionsOfNodes (screenId : String) (context : Option String) : List UiNode → List UIAction
  | [] => []
  | n :: ns => uiActionsOfNode screenId context n ++ uiActionsOfNodes screenId context ns

end

/-- Collects every UI action of every UI document (`collectUIActions`). -/
def collectUIActions (uiFiles : List UiFile) : List UIAction :=
  uiFiles.flatMap fun f =>
    match getScreenInfoUi f with
    | none => []
    | some sc =>
      match sc.layout with
      | some root => uiActionsOfNode sc.id sc.context root
      | none => []

/-- Every UI document's screen key must exist in the L2 registry
(`validateL3ScreensExistInL2`, error). -/
def validateL3ScreensExistInL2 (uiFiles : List UiFile)
    (l2Screens : List (String × Screen)) : List Diagnostic :=
  uiFiles.filterMap fun f =>
    match getScreenInfoUi f with
    | none => none
    | some sc =>
      let key := screenKey sc.id sc.context
      if mapHas l2Screens key then none
      else some
        { code := "L3_UNKNOWN_SCREEN"
          level := .error
          message := "L3-L2不整合: L3 screen が L2 に存在しません (" ++
            displayId sc.id sc.context ++ " / key=" ++ key ++ ")"
          meta := [("filePath", .str f.path), ("screenId", .str sc.id),
                   ("context", .ostr sc.context), ("key", .str key)] }

/-- The global set of L2 transition ids (`if (t.label) transitionIds.add`),
in insertion order. -/
def globalTransitionIds (transitions : List Transition) : List String :=
  transitions.foldl (fun s t => if t.label ≠ "" then setAdd s t.label else s) []

/-- Cross check L3 → L2 (`validateL3L2Cross`): each UI action whose id is not
in the global transition-id set yields one error. -/
def validateL3L2Cross (uiActions : List UIAction) (transitions : List Transition) :
    List Diagnostic :=
  let transitionIds := globalTransitionIds transitions
  uiActions.filterMap fun a =>
    if transitionIds.contains a.action then none
    else some (l3ActionNotInL2 a.action a.screenId a.context a.componentId)

/-- Unused-transition detection (`validateL2TransitionsUsedByL3`, info per
transition; the pipeline later aggregates these). -/
def validateL2TransitionsUsedByL3 (uiActions : List UIAction)
    (transitions : List Transition) (l2Screens : List (String × Screen)) : List Diagnostic :=
  let used := uiActions.foldl (fun s a => setAdd s a.action) []
  transitions.filterMap fun t =>
    if t.label == "" then none
    else if used.contains t.label then none
    else
      let from? := mapGet? l2Screens t.fromKey
      some (l2TransitionUnused t.label (from?.map fun s => s.id) (from?.bind fun s => s.context))

/-! ### L4 state layer (src/validate/l4.ts) -/

/-- A `data.queries` / `data.mutations` entry as read by openapiCheck:
`operationId` and `selectRoot` when they are strings. A `none` entry value
models a non-record YAML value, which openapiCheck skips. -/
structure StateQueryDef where
  operationId : Option String := none
  selectRoot : Option String := none
deriving DecidableEq, Repr

/-- An `events` entry value: `type` plus the `query` / `mutation` reference
fields when present as strings. A missing reference field stringifies to
`"undefined"` in the source (`String(q)`). -/
structure L4EventDoc where
  type : Option String := none
  query : Option String := none
  mutation : Option String := none
deriving DecidableEq, Repr

/-- The `screen` object of a state (L4) document. The `events` values may be
non-objects (`none`), which the event loop skips while `Object.keys` still
sees their keys. -/
structure StateScreenDoc where
  id : String
  context : Option String := none
  queries : List (String × Option StateQueryDef) := []
  mutations : List (String × Option StateQueryDef) := []
  events : List (String × Option L4EventDoc) := []
deriving DecidableEq, Repr

/-- A loaded `*.state.yaml` file. -/
structure StateFile where
  path : String
  group : String
  ajvErrors : List (String × String) := []
  screen : Option StateScreenDoc
deriving DecidableEq, Repr

/-- Guard shared by the L4 collectors: a `screen` object with a non-empty
string id. -/
def getScreenInfoState (f : StateFile) : Option StateScreenDoc :=
  match f.screen with
  | none => none
  | some sc => if sc.id == "" then none else some sc

/-- The set of state-document screen keys (`collectStateScreens`). -/
def collectStateScreens (stateFiles : List StateFile) : List String :=
  stateFiles.foldl
    (fun acc f =>
      match getScreenInfoState f with
      | none => acc
      | some sc => setAdd acc (screenKey sc.id sc.context))
    []

/-- Every state screen key must exist in the L2 registry
(`validateL4L2Cross`, error). -/
def validateL4L2Cross (stateScreens : List String) (l2Screens : List (String × Screen)) :
    List Diagnostic :=
  stateScreens.filterMap fun sk =>
    if mapHas l2Screens sk then none
    else some
      { code := "L4_UNKNOWN_SCREEN"
        level := .error
        message := "L4-L2不整合: state screenKey=\"" ++ sk ++
          "\" に対応する L2 の画面が存在しません"
        meta := [("screenKey", .str sk)] }

/-- Per-document details used by the event cross check. -/
structure L4Details where
  screenId : String
  context : Option String
  screenKey : String
  queries : List String
  mutations : List String
  events : List (String × Option L4EventDoc)
deriving DecidableEq, Repr

/-- Detail collection (`collectL4Details`): keyed by screen key, a later
document with the same key replaces the earlier one in place (`Map.set`). -/
def collectL4Details (stateFiles : List StateFile) : List (String × L4Details) :=
  stateFiles.foldl
    (fun m f =>
      match getScreenInfoState f with
      | none => m
      | some sc =>
        let sk := screenKey sc.id sc.context
        mapSet m sk
          { screenId := sc.id, context := sc.context, screenKey := sk
            queries := sc.queries.foldl (fun s q => setAdd s q.1) []
            mutations := sc.mutations.foldl (fun s q => setAdd s q.1) []
            events := sc.events })
    []

/-- The transition ids outgoing from one screen key (`Set` per key). -/
def transitionIdsByScreenKey (transitions : List Transition) :
    List (String × List String) :=
  transitions.foldl
    (fun m t =>
      if t.label == "" then m
      else mapSet m t.fromKey (setAdd ((mapGet? m t.fromKey).getD []) t.label))
    []

/-- The event keys of a detail (`new Set(Object.keys(events))`). -/
def eventKeysOf (d : L4Details) : List String :=
  d.events.foldl (fun s e => setAdd s e.1) []

/-- L2 transition ids of this screen with no event handler (bucket 1). -/
def missingHandlerItems (l2Ids : List String) (d : L4Details) : List String :=
  l2Ids.filter fun tid => !((eventKeysOf d).contains tid)

/-- Event keys of this screen with no matching L2 transition id (bucket 2). -/
def staleEventKeyItems (l2Ids : List String) (d : L4Details) : List String :=
  (eventKeysOf d).filter fun k => !(l2Ids.contains k)

/-- Offending `callQuery` events of one document: type is `callQuery` and the
stringified `query` is empty or absent from the document's own query set. -/
def unknownQueryItems (d : L4Details) : List (String × String) :=
  d.events.filterMap fun e =>
    match e.2 with
    | none => none
    | some ev =>
      if ev.type == some "callQuery" then
        let qStr := ev.query.getD "undefined"
        if qStr == "" || !(d.queries.contains qStr) then some (e.1, qStr) else none
      else none

/-- Offending `callMutation` events of one document. -/
def unknownMutationItems (d : L4Details) : List (String × String) :=
  d.events.filterMap fun e =>
    match e.2 with
    | none => none
    | some ev =>
      if ev.type == some "callMutation" then
        let mStr := ev.mutation.getD "undefined"
        if mStr == "" || !(d.mutations.contains mStr) then some (e.1, mStr) else none
      else none

/-- One step of bucket aggregation: append this document's items under its
display id (items are pushed entry by entry in the source, so a document
with no items leaves the bucket untouched). -/
def bucketStep (items : L4Details → List α) (acc : List (String × List α))
    (p : String × L4Details) : List (String × List α) :=
  let xs := items p.2
  if xs.isEmpty then acc
  else
    let disp := displayId p.2.screenId p.2.context
    mapSet acc disp ((mapGet? acc disp).getD [] ++ xs)

/-- The bucket-aggregation loop over the detail map entries. -/
def bucketFoldAux (items : L4Details → List α) (acc : List (String × List α)) :
    List (String × L4Details) → List (String × List α)
  | [] => acc
  | p :: rest => bucketFoldAux items (bucketStep items acc p) rest

/-- Aggregation of per-document item lists into a bucket keyed by the display
id. -/
def bucketFold (items : L4Details → List α) (l4Details : List (String × L4Details)) :
    List (String × List α) :=
  bucketFoldAux items [] l4Details

/-- Renders one aggregated bucket of plain ids (buckets 1 and 2) as the
indented multi-line body; per screen the ids are sorted. -/
def bucketLines (bucket : List (String × List String)) : String :=
  let screens := sortBy strLeB (bucket.map fun p => p.1)
  joinSep "\n" (screens.flatMap fun s =>
    ("  " ++ s) ::
      (sortBy strLeB ((mapGet? bucket s).getD [])).map fun item => "    - " ++ item)

/-- Renders one aggregated bucket of `(eventKey, name)` items (buckets 3 and
4); per screen the items are sorted by the composite `eventKey:name` key and
rendered with the given field label (`query` / `mutation`). -/
def bucketItemLines (fieldLabel : String) (bucket : List (String × List (String × String))) :
    String :=
  let screens := sortBy strLeB (bucket.map fun p => p.1)
  joinSep "\n" (screens.flatMap fun s =>
    ("  " ++ s) ::
      (sortBy (fun a b => strLeB (a.1 ++ ":" ++ a.2) (b.1 ++ ":" ++ b.2))
          ((mapGet? bucket s).getD [])).map fun it =>
        "    - " ++ it.1 ++ ": " ++ fieldLabel ++ "=" ++ it.2)

/-- Event cross check (`validateL4EventsCross`): missing handlers and stale
event keys are aggregated info diagnostics; dangling `callQuery` /
`callMutation` references are aggregated error diagnostics. -/
def validateL4EventsCross (l4Details : List (String × L4Details))
    (transitions : List Transition) (_l2Screens : List (String × Screen)) :
    List Diagnostic :=
  let byKey := transitionIdsByScreenKey transitions
  let l2IdsOf := fun (d : L4Details) => (mapGet? byKey d.screenKey).getD []
  let missingHandlers := bucketFold (fun d => missingHandlerItems (l2IdsOf d) d) l4Details
  let staleEventKeys := bucketFold (fun d => staleEventKeyItems (l2IdsOf d) d) l4Details
  let unknownQuery := bucketFold unknownQueryItems l4Details
  let unknownMutation := bucketFold unknownMutationItems l4Details
  (if missingHandlers.isEmpty then []
   else
    [{ code := "L2_TRANSITION_NOT_IN_L4"
       level := .info
       message := "L2 transition が L4.events に未定義（状態）:\n" ++ bucketLines missingHandlers
       meta := [("screens", .strs (sortBy strLeB (missingHandlers.map fun p => p.1))),
                ("count", .nat (missingHandlers.foldl (fun n p => n + p.2.length) 0))] }]) ++
  (if staleEventKeys.isEmpty then []
   else
    [{ code := "L3_UNKNOWN_TRANSITION"
       level := .info
       message := "L4.events に存在するが L2 に存在しない eventKey（状態）:\n" ++
         bucketLines staleEventKeys
       meta := [("screens", .strs (sortBy strLeB (staleEventKeys.map fun p => p.1))),
                ("count", .nat (staleEventKeys.foldl (fun n p => n + p.2.length) 0))] }]) ++
  (if unknownQuery.isEmpty then []
   else
    [{ code := "L4_UNKNOWN_QUERY"
       level := .error
       message := "L4.events(callQuery) が data.queries に存在しない query を参照（実装不能）:\n" ++
         bucketItemLines "query" unknownQuery
       meta := [("screens", .strs (sortBy strLeB (unknownQuery.map fun p => p.1)))] }]) ++
  (if unknownMutation.isEmpty then []
   else
    [{ code := "L4_UNKNOWN_MUTATION"
       level := .error
       message := "L4.events(callMutation) が data.mutations に存在しない mutation を参照（実装不能）:\n" ++
         bucketItemLines "mutation" unknownMutation
       meta := [("screens", .strs (sortBy strLeB (unknownMutation.map fun p => p.1)))] }])

/-! ### i18n audit (src/validate/i18n.ts) -/

/-- Key prefix for a screen (`app.screen.<id>[.ctx.<context>]`). -/
def i18nScreenPfx (screenId : String) (context : Option String) : String :=
  if strTruthy context then "app.screen." ++ screenId ++ ".ctx." ++ context.getD ""
  else "app.screen." ++ screenId

mutual

/-- Stack traversal of one UI node for `collectExpectedI18nKeys`. The source
uses an explicit stack popped from the end, which visits a node itself and
then the members of `children ++ layout.children` from last to first, each
subtree completely; a node contributes a key when its `name` is a non-empty
string and its `id` is a non-empty string. -/
def i18nKeysOfNode (pfx : String) : UiNode → List String
  | .node id name _ children layoutChildren =>
    (match name with
     | some n =>
       if n ≠ "" then
         match id with
         | some i => if i ≠ "" then [pfx ++ ".component." ++ i ++ ".label"] else []
         | none => []
       else []
     | none => []) ++
    i18nKeysOfNodesRev pfx layoutChildren ++ i18nKeysOfNodesRev pfx children

/-- Traversal of a child list from its last member to its first (the pop
order of the source's stack). -/
def i18nKeysOfNodesRev (pfx : String) : List UiNode → List String
  | [] => []
  | n :: ns => i18nKeysOfNodesRev pfx ns ++ i18nKeysOfNode pfx n

end

/-- Expected i18n keys (`collectExpectedI18nKeys`): the title key of every
registered L2 screen, then the component label keys of every UI document,
deduplicated in insertion order (JS `Set`). -/
def collectExpectedI18nKeys (l2Screens : List (String × Screen)) (uiFiles : List UiFile) :
    List String :=
  let l2Keys := l2Screens.map fun p => i18nScreenPfx p.2.id p.2.context ++ ".title"
  let l3Keys := uiFiles.flatMap fun f =>
    match f.screen with
    | none => []
    | some sc =>
      if sc.id == "" then []
      else
        match sc.layout with
        | none => []
        | some root => i18nKeysOfNode (i18nScreenPfx sc.id sc.context) root
  (l2Keys ++ l3Keys).foldl setAdd []

/-- The per-locale body of the i18n audit: every expected key must exist in
the locale's dictionary (error), and an empty value in a non-`ja` locale is
an untranslated note (info). The dictionaries are inputs
(`i18n/<locale>.json` as association lists; a missing or empty file is the
empty dictionary). -/
def i18nLocaleDiags (i18nFiles : List (String × List (String × String)))
    (expectedKeys : List String) (loc : String) : List Diagnostic :=
  let dict := (mapGet? i18nFiles loc).getD []
  expectedKeys.flatMap fun k =>
    match mapGet? dict k with
    | none => [i18nMissingKey loc k]
    | some v => if loc ≠ "ja" && v == "" then [i18nUntranslated loc k] else []

/-- The effective locale list of the i18n audit: the configured locales
when non-empty, else the locale files found on disk. -/
def i18nLocalesOf (config : MobileSpecConfig)
    (i18nFiles : List (String × List (String × String))) : List String :=
  match config.i18nLocales with
  | some ls => if ls.length > 0 then ls else i18nFiles.map fun p => p.1
  | none => i18nFiles.map fun p => p.1

/-- The i18n audit (`validateI18n`): nothing when no locales are known, an
error when `ja` is not among them, then the per-locale key audit. -/
def validateI18n (config : MobileSpecConfig) (l2Screens : List (String × Screen))
    (uiFiles : List UiFile) (i18nFiles : List (String × List (String × String))) :
    List Diagnostic :=
  let expectedKeys := collectExpectedI18nKeys l2Screens uiFiles
  let locales := i18nLocalesOf config i18nFiles
  if locales.isEmpty then []
  else
    (if locales.contains "ja" then ([] : List Diagnostic)
     else
      [{ code := "I18N_MISSING_KEY"
         level := .error
         message := "i18n不整合: locales に \"ja\" が含まれていません（基準言語が必要）"
         meta := [("locales", .strs locales),
                  ("hint", .str "Add \"ja\" to mobilespec.config.yml i18n.locales and create i18n/ja.json")] }]) ++
    locales.flatMap (i18nLocaleDiags i18nFiles expectedKeys)

/-! ### Schema validation stage (src/validate/schema.ts)

The schema compilation and evaluation are external; each file's verdict is
an input carried on the file. -/

/-- Schema-validation stage for one layer (`validateSchema`): a missing
schema file is one error; otherwise one error per violation per file, with
the source's `instancePath || '/'` and `message || 'unknown error'`
fallbacks. -/
def validateSchema (files : List (String × List (String × String)))
    (schemaPath : String) (schemaPresent : Bool) (label : String) : List Diagnostic :=
  if !schemaPresent then [schemaNotFound label schemaPath]
  else
    files.flatMap fun f =>
      f.2.map fun e =>
        schemaError label f.1 (if e.1 == "" then "/" else e.1)
          (if e.2 == "" then "unknown error" else e.2)

/-! ### External contract resolver (src/openapiCheck.ts) -/

/-- Untyped YAML/JSON value for the schema-resolution part of openapiCheck. -/
inductive Json where
  | null
  | bool (b : Bool)
  | str (s : String)
  | num (n : Int)
  | arr (elems : List Json)
  | obj (fields : List (String × Json))

/-- JS truthiness of a `Json` value (used for `!resolved` and the record
checks that follow). -/
def jsFalsy : Json → Bool
  | .null => true
  | .bool b => !b
  | .str s => s == ""
  | .num n => n == 0
  | _ => false

/-- Decodes one JSON-pointer token (`~1` → `/`, then `~0` → `~`). -/
def decodeJsonPointerToken (s : String) : String :=
  jsReplacePair (jsReplacePair s '~' '1' '/') '~' '0' '~'

/-- Resolves a same-document `#/...` JSON pointer. A failed step (missing
key or non-record parent) yields `none`, which the caller treats exactly as
the source treats a null/undefined result. -/
def resolveJsonPointer (doc : Json) (ref : String) : Option Json :=
  if !(jsStartsWith ref "#/") then none
  else
    match doc with
    | .obj _ =>
      let parts := (jsSplitChar (⟨ref.data.drop 2⟩ : String) '/').map decodeJsonPointerToken
      parts.foldl
        (fun cur? part =>
          match cur? with
          | some (.obj fields) => mapGet? fields part
          | _ => none)
        (some doc)
    | _ => none

/-- Result of response-schema root-key resolution. -/
inductive ResponseRootKeys where
  | keys (ks : List String)
  | unresolved (reason : String)
deriving DecidableEq, Repr

/-- Root-key extraction (`extractRootKeysFromSchema`). The source recursion
carries `depth` with the cap `depth > 16`; here `fuel = 17 - depth`, so the
initial call uses fuel 17 and every recursive call decrements it. -/
def extractRootKeysFromSchema (doc : Json) : Nat → Json → ResponseRootKeys
  | 0, _ => .unresolved "ref depth limit"
  | fuel + 1, schema =>
    match schema with
    | .obj fields =>
      match mapGet? fields "$ref" with
      | some (.str ref) =>
        (match resolveJsonPointer doc ref with
         | none => .unresolved ("cannot resolve $ref: " ++ ref)
         | some v =>
           if jsFalsy v then .unresolved ("cannot resolve $ref: " ++ ref)
           else extractRootKeysFromSchema doc fuel v)
      | _ =>
        match mapGet? fields "properties" with
        | some (.obj props) => .keys (props.foldl (fun acc p => setAdd acc p.1) [])
        | _ =>
          match mapGet? fields "allOf" with
          | some (.arr members) =>
            let results := members.map (extractRootKeysFromSchema doc fuel)
            let anyKeys := results.any fun r =>
              match r with
              | .keys _ => true
              | .unresolved _ => false
            let merged := results.foldl
              (fun acc r =>
                match r with
                | .keys ks => ks.foldl setAdd acc
                | .unresolved _ => acc)
              []
            if anyKeys then .keys merged else .unresolved "allOf but no properties"
          | _ =>
            match mapGet? fields "oneOf" with
            | some (.arr _) => .unresolved "oneOf schema"
            | _ =>
              match mapGet? fields "anyOf" with
              | some (.arr _) => .unresolved "anyOf schema"
              | _ => .unresolved "schema.properties is missing"
    | _ => .unresolved "schema is not an object"

/-- An operation entry after the lenient zod parse: the optional
`operationId` string and the raw `responses` record. -/
structure OAOperation where
  operationId : Option String := none
  responses : Option (List (String × Json)) := none

/-- The parsed external contract: the raw document (for pointer resolution)
and its `paths` record (path → method-like key → operation). -/
structure OADoc where
  root : Json
  paths : List (String × List (String × OAOperation)) := []

/-- The recognised HTTP method keys. -/
def httpMethods : List String :=
  ["get", "put", "post", "delete", "options", "head", "patch", "trace"]

/-- First successful JSON response schema (`pickFirst2xxJsonSchema`): the
three-digit response codes sorted numerically, the first `2xx` one whose
`content` has `application/json` with an object schema, else its first
json-like content type with an object schema. -/
def pickFirst2xxJsonSchema (op : OAOperation) : Option Json :=
  match op.responses with
  | none => none
  | some responses =>
    let codes := sortBy (fun a b => digitsToNat a ≤ digitsToNat b)
      ((responses.map fun p => p.1).filter isThreeDigits)
    codes.findSome? fun code =>
      if !(jsStartsWith code "2") then none
      else
        match mapGet? responses code with
        | some (.obj rf) =>
          (match mapGet? rf "content" with
           | some (.obj content) =>
             let appJson :=
               match mapGet? content "application/json" with
               | some (.obj aj) =>
                 (match mapGet? aj "schema" with
                  | some (.obj sf) => some (Json.obj sf)
                  | _ => none)
               | _ => none
             match appJson with
             | some s => some s
             | none =>
               content.findSome? fun ct =>
                 if jsIncludes ct.1 "json" then
                   match ct.2 with
                   | .obj body =>
                     (match mapGet? body "schema" with
                      | some (.obj sf) => some (Json.obj sf)
                      | _ => none)
                   | _ => none
                 else none
           | _ => none)
        | _ => none

/-- Accumulator of the operation-registry walk. -/
structure OpCollect where
  opIds : List String := []
  occurrences : List (String × List String) := []
  missing : List String := []
  rootKeysByOpId : List (String × ResponseRootKeys) := []

/-- Operation registry construction (`collectOperationIdsFromOpenApi`):
walk every path × method-like key, require a non-blank `operationId`,
record occurrences and the resolved response root keys (a later duplicate
occurrence overwrites the root keys in place). -/
def collectOperationIdsFromOpenApi (doc : OADoc) : OpCollect :=
  doc.paths.foldl
    (fun acc path =>
      path.2.foldl
        (fun acc entry =>
          let m := jsToLower entry.1
          if !(httpMethods.contains m) then acc
          else
            let label := jsToUpper m ++ " " ++ path.1
            let op := entry.2
            match op.operationId with
            | none => { acc with missing := acc.missing ++ [label] }
            | some oid =>
              if jsTrim oid == "" then { acc with missing := acc.missing ++ [label] }
              else
                let rk :=
                  match pickFirst2xxJsonSchema op with
                  | some schema => extractRootKeysFromSchema doc.root 17 schema
                  | none => .unresolved "no 2xx application/json schema"
                { acc with
                  opIds := setAdd acc.opIds oid
                  occurrences := mapSet acc.occurrences oid
                    ((mapGet? acc.occurrences oid).getD [] ++ [label])
                  rootKeysByOpId := mapSet acc.rootKeysByOpId oid rk })
        acc)
    {}

/-- The duplicate entries of the occurrence map. -/
def opDuplicates (acc : OpCollect) : List (String × List String) :=
  acc.occurrences.filter fun p => p.2.length > 1

/-- A state-layer data reference (`L4Ref`): `rel` is the path made relative
to the specs directory, as the source reports it. -/
structure L4Ref where
  screenId : String
  kind : String
  name : String
  operationId : String
  selectRoot : Option String := none
  rel : String
deriving DecidableEq, Repr

/-- A state file as openapiCheck re-reads it: the external AJV verdict for
the L4 schema (`ajvOk` / `ajvDetails`, the joined error text), and the
screen object. -/
structure OAStateFile where
  rel : String
  ajvOk : Bool := true
  ajvDetails : String := "unknown error"
  screen : Option StateScreenDoc
deriving DecidableEq, Repr

/-- The references of one schema-valid state file: queries then mutations,
each entry needing a record value with a non-blank string `operationId`;
`selectRoot` is kept only when it is a non-blank string. -/
def oaRefsOfFile (f : OAStateFile) : List L4Ref :=
  match f.screen with
  | none => []
  | some sc =>
    let mk := fun (kind : String) (entry : String × Option StateQueryDef) =>
      match entry.2 with
      | none => none
      | some q =>
        match q.operationId with
        | some oid =>
          if jsTrim oid ≠ "" then
            some { screenId := sc.id, kind := kind, name := entry.1, operationId := oid
                   selectRoot :=
                     match q.selectRoot with
                     | some sr => if jsTrim sr ≠ "" then some sr else none
                     | none => none
                   rel := f.rel }
          else none
        | none => none
    (sc.queries.filterMap (mk "query")) ++ (sc.mutations.filterMap (mk "mutation"))

/-- Reference collection (`collectOperationIdRefsFromL4`): a file failing the
external L4 schema contributes one `L4_INVALID` error and no references. -/
def collectOperationIdRefsFromL4 (l4Files : List OAStateFile) :
    List L4Ref × List Diagnostic :=
  let refs := l4Files.flatMap fun f => if f.ajvOk then oaRefsOfFile f else []
  let errs := l4Files.filterMap fun f =>
    if f.ajvOk then none
    else some
      { code := "L4_INVALID"
        level := .error
        message := "L4 invalid: " ++ f.rel ++ ": " ++ f.ajvDetails
        meta := [("file", .str f.rel), ("details", .str f.ajvDetails)] }
  (refs, errs)

/-- Options of openapiCheck as the pipeline passes them. The `validate`
pipeline passes no `warnUnusedOperationId` field, so the flag is falsy
there. -/
structure OpenapiCheckOpts where
  warnUnusedOperationId : Bool := false
  checkSelectRoot : Bool := false
deriving DecidableEq, Repr

/-- The inputs of one openapiCheck run once the file exists: the zod parse
outcome (`Sum.inl` carries the formatted issue text) and the state files. -/
structure OpenapiCheckInput where
  parse : Sum String OADoc
  l4Files : List OAStateFile := []

/-- Error for a reference to an operation id absent from the registry. -/
def unknownOperationIdDiag (r : L4Ref) : Diagnostic :=
  { code := "L4_UNKNOWN_OPERATION_ID"
    level := .error
    message := "L4 が存在しない operationId を参照: " ++ r.operationId ++ " (" ++ r.kind ++
      ":" ++ r.name ++ ") screen=" ++ r.screenId ++ " file=" ++ r.rel
    meta := [("operationId", .str r.operationId), ("kind", .str r.kind),
             ("name", .str r.name), ("screenId", .str r.screenId), ("file", .str r.rel)] }

/-- Warning when the registry has no root-key record for the operation (the
registry records every collected operation, so this branch is defensive). -/
def schemaNoInfoDiag (r : L4Ref) : Diagnostic :=
  { code := "OPENAPI_RESPONSE_SCHEMA_UNRESOLVED"
    level := .warning
    message := "OpenAPI response schema を取得できず selectRoot を検証できません: operationId=" ++
      r.operationId
    meta := [("operationId", .str r.operationId), ("screenId", .str r.screenId),
             ("kind", .str r.kind), ("name", .str r.name)] }

/-- Warning when the response-schema root keys are unresolved, so the
selectRoot cannot be checked. -/
def schemaUnresolvedDiag (r : L4Ref) (reason : String) : Diagnostic :=
  { code := "OPENAPI_RESPONSE_SCHEMA_UNRESOLVED"
    level := .warning
    message := "OpenAPI response schema を解決できず selectRoot を検証できません: operationId=" ++
      r.operationId ++ " reason=" ++ reason
    meta := [("operationId", .str r.operationId), ("reason", .str reason),
             ("screenId", .str r.screenId), ("kind", .str r.kind), ("name", .str r.name)] }

/-- Warning when the declared selectRoot is not among the resolved response
root keys. -/
def selectRootMismatchDiag (r : L4Ref) (sel : String) (ks : List String) : Diagnostic :=
  { code := "L4_INVALID_SELECT_ROOT"
    level := .warning
    message := "L4 selectRoot が OpenAPI レスポンスのrootに存在しません: operationId=" ++
      r.operationId ++ " selectRoot=" ++ sel
    meta := [("operationId", .str r.operationId), ("selectRoot", .str sel),
             ("availableRoots", .strs (sortBy strLeB ks)),
             ("screenId", .str r.screenId), ("kind", .str r.kind),
             ("name", .str r.name)] }

/-- Diagnostics of the per-reference loop body of openapiCheck: unknown
operation id (error), then — when `checkSelectRoot` is on and the reference
carries a selectRoot — the unresolved-schema warning or the
missing-root-key warning. -/
def refDiagnostics (opts : OpenapiCheckOpts) (opIds : List String)
    (rootKeysByOpId : List (String × ResponseRootKeys)) (r : L4Ref) : List Diagnostic :=
  if !(opIds.contains r.operationId) then
    [unknownOperationIdDiag r]
  else if opts.checkSelectRoot && strTruthy r.selectRoot then
    match mapGet? rootKeysByOpId r.operationId with
    | none => [schemaNoInfoDiag r]
    | some (.unresolved reason) => [schemaUnresolvedDiag r reason]
    | some (.keys ks) =>
      let sel := r.selectRoot.getD ""
      if ks.contains sel then [] else [selectRootMismatchDiag r sel ks]
  else []

/-- The external-contract check (`openapiCheck`). The caller has already
established that the contract file exists (both callers test existence
before invoking it, so the internal missing-file branch is handled by the
caller model in `validate`). -/
def openapiCheck (opts : OpenapiCheckOpts) (inp : OpenapiCheckInput) : List Diagnostic :=
  match inp.parse with
  | .inl issues =>
    [{ code := "OPENAPI_INVALID"
       level := .error
       message := "OpenAPI invalid: " ++ issues
       meta := [("issues", .str issues)] }]
  | .inr doc =>
    let acc := collectOperationIdsFromOpenApi doc
    let missingDiags : List Diagnostic :=
      if acc.missing.isEmpty then []
      else
        [{ code := "OPENAPI_MISSING_OPERATION_ID"
           level := .error
           message := "OpenAPI に operationId が無い operation: " ++ joinSep ", " acc.missing
           meta := [("operations", .strs acc.missing)] }]
    let duplicates := opDuplicates acc
    let duplicateDiags : List Diagnostic :=
      if duplicates.isEmpty then []
      else
        let lines := joinSep "\n" (duplicates.map fun p =>
          "  - " ++ p.1 ++ ": " ++ joinSep ", " p.2)
        [{ code := "OPENAPI_DUPLICATE_OPERATION_ID"
           level := .error
           message := "OpenAPI operationId が重複（operationId は一意が必須）:\n" ++ lines
           meta := [("duplicates", .pairs duplicates)] }]
    let collected := collectOperationIdRefsFromL4 inp.l4Files
    let refs := collected.1
    let l4Errors := collected.2
    if inp.l4Files.isEmpty then
      missingDiags ++ duplicateDiags ++ l4Errors ++
        [{ code := "L4_NO_FILES"
           level := .warning
           message := "L4.state が無いため、OpenAPI との突合をスキップしました" }]
    else
      let refDiags := refs.flatMap (refDiagnostics opts acc.opIds acc.rootKeysByOpId)
      let unusedDiags : List Diagnostic :=
        if opts.warnUnusedOperationId then
          let used := refs.foldl (fun s r => setAdd s r.operationId) []
          let unused := acc.opIds.filter fun oid => !(used.contains oid)
          if unused.isEmpty then []
          else
            [{ code := "L4_UNUSED_OPERATION_ID"
               level := .warning
               message := "OpenAPI operationId が L4 から未参照（導入期ならOK）: " ++
                 joinSep ", " unused
               meta := [("operationIds", .strs unused)] }]
        else []
      missingDiags ++ duplicateDiags ++ l4Errors ++ refDiags ++ unusedDiags

/-! ### Unused-item formatting (src/lib/formatUnused.ts) -/

/-- An unused item: a key and optional structural labels. -/
structure UnusedItem where
  key : String
  labels : Option (List String) := none
deriving DecidableEq, Repr

/-- Structural root of a label such as `GET /users/x` (`extractRootFromLabel`). -/
def extractRootFromLabel (label : String) : String :=
  let parts := jsSplitChar label ' '
  if parts.length < 2 then "(unknown)"
  else
    let p := (parts.drop 1).headD ""
    match ((jsSplitChar p '/').filter fun seg => seg ≠ "").head? with
    | some first => "/" ++ first
    | none => "/"

/-- Group of one unused item: the shared label root, `(multiple roots)` when
the label roots differ, `(unknown)` without usable labels. -/
def unusedGroupOf (item : UnusedItem) : String :=
  let labels := ((item.labels.getD []).filter fun l => jsTrim l ≠ "")
  if labels.isEmpty then "(unknown)"
  else
    let roots := labels.foldl (fun s l => setAdd s (extractRootFromLabel l)) []
    if roots.length == 1 then roots.headD "(unknown)" else "(multiple roots)"

/-- Formats a titled, grouped, sorted report of unused items (`formatUnused`). -/
def formatUnused (title : String) (items : List UnusedItem) : String :=
  if items.isEmpty then title
  else
    let groups := items.foldl
      (fun m item =>
        let g := unusedGroupOf item
        mapSet m g ((mapGet? m g).getD [] ++ [item]))
      ([] : List (String × List UnusedItem))
    let body := joinSep "\n" ((sortBy (fun a b => strLeB a.1 b.1) groups).map fun g =>
      let lines := joinSep "\n" ((sortBy (fun a b => strLeB a.key b.key) g.2).map fun e =>
        let labels := ((e.labels.getD []).filter fun l => jsTrim l ≠ "")
        if labels.isEmpty then "    - " ++ e.key
        else "    - " ++ e.key ++ " (" ++ joinSep ", " labels ++ ")")
      "  " ++ g.1 ++ "\n" ++ lines)
    title ++ ":\n" ++ body

/-! ### Main pipeline (src/validate/index.ts) -/

/-- String-valued metadata lookup modelling `typeof meta.k === 'string'`. -/
def metaStr? (d : Diagnostic) (k : String) : Option String :=
  match mapGet? d.meta k with
  | some (.str s) => some s
  | _ => none

/-- Conversion of one `L2_TRANSITION_UNUSED` diagnostic to an unused item
(the mapping inlined in `validate`; `fromKey`/`toKey` are absent from the
diagnostics the current `validateL2TransitionsUsedByL3` emits, and string
truthiness guards both fallbacks). -/
def toUnusedItem (d : Diagnostic) : UnusedItem :=
  let fromKey := metaStr? d "fromKey"
  let toKey := metaStr? d "toKey"
  let key :=
    match metaStr? d "transitionId" with
    | some t => t
    | none =>
      if strTruthy fromKey && strTruthy toKey then fromKey.getD "" ++ " -> " ++ toKey.getD ""
      else d.message
  { key := key
    labels := if strTruthy fromKey then some ["FROM " ++ fromKey.getD ""] else none }

/-- A schema file reference: its path and whether it exists on disk. -/
structure SchemaInput where
  path : String
  present : Bool := true
deriving DecidableEq, Repr

/-- One whole validation run's input: the loaded documents of the three
layers, the loaded configuration, the three schema files, the i18n
dictionaries on disk, and — when the configured contract path resolves to an
existing file — the loaded contract inputs (`none` models a missing file). -/
structure ValidateInput where
  flowFiles : List NavFile := []
  uiFiles : List UiFile := []
  stateFiles : List StateFile := []
  config : MobileSpecConfig := {}
  l2Schema : SchemaInput := { path := "schema/L2.screenflows.schema.json" }
  l3Schema : SchemaInput := { path := "schema/L3.ui.schema.json" }
  l4Schema : SchemaInput := { path := "schema/L4.state.schema.json" }
  i18nFiles : List (String × List (String × String)) := []
  openapiResolved : Option OpenapiCheckInput := none

/-- The result record of `validate` (the `errors`/`warnings` getters of the
result type are derived views over `diagnostics`). -/
structure ValidationResult where
  screens : List (String × Screen)
  config : MobileSpecConfig
  transitions : List Transition
  uiActions : List UIAction
  stateScreens : List String
  diagnostics : List Diagnostic

/-- The openapi stage of `validate`: skip when no `openapi.path` is
configured; configuration or file errors otherwise; else run `openapiCheck`
with `checkSelectRoot` from the configuration (the call passes no
`warnUnusedOperationId`, so that flag is falsy). -/
def openapiStageDiagnostics (inp : ValidateInput) : List Diagnostic :=
  match inp.config.openapi with
  | none => []
  | some oc =>
    match oc.path with
    | .missing => []
    | .nonString =>
      [{ code := "OPENAPI_NOT_FOUND"
         level := .error
         message := "openapi.path が不正です（空文字 or 非文字列）" }]
    | .strVal s =>
      if jsTrim s == "" then
        [{ code := "OPENAPI_NOT_FOUND"
           level := .error
           message := "openapi.path が不正です（空文字 or 非文字列）"
           meta := [("openapiPath", .str s)] }]
      else
        match inp.openapiResolved with
        | none =>
          [{ code := "OPENAPI_NOT_FOUND"
             level := .error
             message := "OpenAPI が見つかりません: " ++ s
             meta := [("path", .str s), ("raw", .str s)] }]
        | some oinp =>
          openapiCheck { checkSelectRoot := oc.checkSelectRoot } oinp

/-- Diagnostics of every stage before the openapi stage, concatenated in the
fixed layer order of `validate` (the model's graph builder is total, so the
`safeRun` catch branch contributes nothing). -/
def validateCoreDiagnostics (inp : ValidateInput) : List Diagnostic :=
  let l2SchemaErrors := validateSchema (inp.flowFiles.map fun f => (f.path, f.ajvErrors))
    inp.l2Schema.path inp.l2Schema.present "L2"
  let l3SchemaErrors := validateSchema (inp.uiFiles.map fun f => (f.path, f.ajvErrors))
    inp.l3Schema.path inp.l3Schema.present "L3"
  let l4SchemaErrors := validateSchema (inp.stateFiles.map fun f => (f.path, f.ajvErrors))
    inp.l4Schema.path inp.l4Schema.present "L4"
  let l2c := collectScreensAndTransitions inp.flowFiles inp.config
  let l2Warnings := validateTransitions l2c.screens l2c.transitions
  let l2Infos := l2Warnings.map fun d => { d with level := .info }
  let uiActions := collectUIActions inp.uiFiles
  let l3ScreenErrors := validateL3ScreensExistInL2 inp.uiFiles l2c.screens
  let crossErrors := validateL3L2Cross uiActions l2c.transitions
  let rawUnused := validateL2TransitionsUsedByL3 uiActions l2c.transitions l2c.screens
  let unusedItems := (rawUnused.filter fun d => d.code == "L2_TRANSITION_UNUSED").map toUnusedItem
  let l2UnusedDiagnostics : List Diagnostic :=
    if unusedItems.isEmpty then []
    else
      [{ code := "L2_TRANSITION_UNUSED"
         level := .info
         message := formatUnused "L2 未使用 transition" unusedItems
         meta := [("count", .nat unusedItems.length)] }]
  let stateScreens := collectStateScreens inp.stateFiles
  let l4Errors := validateL4L2Cross stateScreens l2c.screens
  let l4Details := collectL4Details inp.stateFiles
  let l4EventWarnings := validateL4EventsCross l4Details l2c.transitions l2c.screens
  let l4EventInfos := l4EventWarnings.map fun d => { d with level := .info }
  let i18nDiagnostics := validateI18n inp.config l2c.screens inp.uiFiles inp.i18nFiles
  l2SchemaErrors ++ l2c.errors ++ l2Infos ++ l2UnusedDiagnostics ++
    l3SchemaErrors ++ l3ScreenErrors ++ crossErrors ++
    l4SchemaErrors ++ l4Errors ++ l4EventInfos ++
    i18nDiagnostics

/-- The whole validation run (`validate` of src/validate/index.ts): the core
stages in fixed layer order, then the openapi stage. -/
def validate (inp : ValidateInput) : ValidationResult :=
  let l2c := collectScreensAndTransitions inp.flowFiles inp.config
  { screens := l2c.screens
    config := inp.config
    transitions := l2c.transitions
    uiActions := collectUIActions inp.uiFiles
    stateScreens := collectStateScreens inp.stateFiles
    diagnostics := validateCoreDiagnostics inp ++ openapiStageDiagnostics inp }

/-! ### CLI exit policy (src/bin/cli.ts) -/

/-- Exit code of `reportAndCode`: 1 when any error exists; otherwise 1 when
warnings exist and `failOnWarnings` is set; otherwise 0. Info diagnostics
are only printed. -/
def reportAndCode (diagnostics : List Diagnostic) (failOnWarnings : Bool) : Nat :=
  let errors := diagnostics.filter fun d => d.level == .error
  let warnings := diagnostics.filter fun d => d.level == .warning
  if errors.length ≠ 0 then 1
  else if warnings.length ≠ 0 && failOnWarnings then 1
  else 0

/-- The `failOnWarnings` flag of `parse`: it starts `true` (strict default),
`--no-fail-on-warnings` clears it, `--fail-on-warnings` sets it again. -/
def parseFailOnWarnings (args : List String) : Bool :=
  let f := true
  let f := if args.contains "--no-fail-on-warnings" then false else f
  if args.contains "--fail-on-warnings" then true else f

/-! ### Spec-modelled choice policy -/

/-- Error diagnostic of the spec-modelled choice policy for a guardless,
non-else outgoing transition of a choice screen. -/
def choiceNeedsGuardDiag (key transitionId : String) : Diagnostic :=
  { code := "L2_INVALID"
    level := .error
    message := "choice screen " ++ key ++ " の transition " ++ transitionId ++
      " に guard も else:true もありません"
    meta := [("key", .str key), ("transitionId", .str transitionId)] }

/-- Error diagnostic of the spec-modelled choice policy for a second or
later `else:true` transition on one choice screen. -/
def choiceExtraElseDiag (key transitionId : String) : Diagnostic :=
  { code := "L2_INVALID"
    level := .error
    message := "choice screen " ++ key ++ " に else:true の transition が複数あります (" ++
      transitionId ++ ")"
    meta := [("key", .str key), ("transitionId", .str transitionId)] }

/-- Error diagnostic of the spec-modelled choice policy for a tap-triggered
outgoing transition of a choice screen. -/
def choiceTapDiag (key transitionId : String) : Diagnostic :=
  { code := "L2_INVALID"
    level := .error
    message := "choice screen " ++ key ++ " の transition " ++ transitionId ++
      " が tap トリガです（choice の解決は自動でなければなりません）"
    meta := [("key", .str key), ("transitionId", .str transitionId)] }

/-- Modelled from the spec: the choice-screen validation policy of the
navigation layer, which the sources under src/ do not contain (the newest
`validate/index.ts` passes the loaded guard registry into a
`validateTransitions` variant that is not part of the provided files). Per
the spec, for every `choice`-kind screen: every outgoing transition must
carry a guard reference or `else:true`; at most one transition per screen
may carry `else:true`; and a `tap`-triggered outgoing edge is an error
(choice resolution must be automatic). -/
def validateChoicePolicy (files : List NavFile) : List Diagnostic :=
  files.flatMap fun f =>
    match f.screen with
    | none => []
    | some sc =>
      if sc.kind == some "choice" then
        let key := screenKey sc.id sc.context
        (sc.transitions.filterMap fun t =>
          if !strTruthy t.guard && !t.elseFlag then some (choiceNeedsGuardDiag key t.id)
          else none) ++
        (((sc.transitions.filter fun t => t.elseFlag).drop 1).map fun t =>
          choiceExtraElseDiag key t.id) ++
        (sc.transitions.filterMap fun t =>
          if t.trigger == some "tap" then some (choiceTapDiag key t.id) else none)
      else []

/-! ### Concrete instances used by witnesses and counterexamples -/

/-- Navigation document `(id = a, no context)`. -/
def cexNavA : NavFile :=
  { path := "a.flow.yaml", group := "", screen := some { id := "a", name := "A" } }

/-- Navigation document `(id = a, context = empty string)`: its `(id,
context)` pair differs from `cexNavA`, its screen key does not. -/
def cexNavA2 : NavFile :=
  { path := "a2.flow.yaml", group := ""
    screen := some { id := "a", name := "A2", context := some "" } }

/-- Variant `b[x]`. -/
def cexNavB1 : NavFile :=
  { path := "b1.flow.yaml", group := ""
    screen := some { id := "b", name := "B1", context := some "x" } }

/-- Variant `b[y]`. -/
def cexNavB2 : NavFile :=
  { path := "b2.flow.yaml", group := ""
    screen := some { id := "b", name := "B2", context := some "y" } }

/-- A screen with a transition to the ambiguous target id `b` and no target
context. -/
def cexNavC : NavFile :=
  { path := "c.flow.yaml", group := ""
    screen := some { id := "c", name := "C"
                     transitions := [{ id := "go", target := "b", targetContext := none }] } }

/-- A UI action on screen `home` whose id is `go`. -/
def cexActionHome : UIAction :=
  { screenId := "home", context := none, componentId := "btn", action := "go" }

/-- A transition labelled `go` declared on a different screen (`other[x]`). -/
def cexTransitionOther : Transition :=
  { fromKey := "other__x", toKey := "elsewhere", label := "go", self := false }

/-- Entry screen registry entry used by the reachability witness. -/
def witScreenHome : Screen :=
  { id := "home", name := "Home", group := "", order := 99
    entry := true, exit := false, context := none }

/-- Exit screen registry entry used by the reachability witness. -/
def witScreenTasks : Screen :=
  { id := "tasks", name := "Tasks", group := "", order := 99
    entry := false, exit := true, context := none }

/-- Registry of the reachability witness. -/
def witScreens : List (String × Screen) :=
  [("home", witScreenHome), ("tasks", witScreenTasks)]

/-- Transitions of the reachability witness (`home → tasks`). -/
def witTransitions : List Transition :=
  [{ fromKey := "home", toKey := "tasks", label := "open_tasks", self := false }]

/-- An external contract declaring `getTasks` whose 200 response resolves to
the root-key set `{items}`. -/
def cexOADoc : OADoc :=
  { root := .obj [("paths", .obj [])]
    paths := [("/tasks",
      [("get",
        { operationId := some "getTasks"
          responses := some [("200", .obj [("content", .obj [("application/json",
            .obj [("schema", .obj [("properties", .obj [("items", .null)])])])])])] })])] }

/-- A state file referencing `getTasks` with `selectRoot: foo`, which is not
among the resolved root keys. -/
def cexOAState : OAStateFile :=
  { rel := "home.state.yaml"
    screen := some { id := "home"
                     queries := [("q1", some { operationId := some "getTasks"
                                               selectRoot := some "foo" })] } }

/-- The openapiCheck run of the selectRoot counterexample. -/
def cexOAInput : OpenapiCheckInput := { parse := .inr cexOADoc, l4Files := [cexOAState] }

/-- The single reference collected from `cexOAState`. -/
def cexOARef : L4Ref :=
  { screenId := "home", kind := "query", name := "q1", operationId := "getTasks"
    selectRoot := some "foo", rel := "home.state.yaml" }

/-- A validation-run input whose contract stage runs on an existing, parseable
contract with no state files: the run emits the `L4_NO_FILES` warning. -/
def cexWarnRunInput : ValidateInput :=
  { config := { openapi := some { path := .strVal "openapi.yaml" } }
    openapiResolved := some { parse := .inr { root := .obj [] }, l4Files := [] } }

/-- Guardless, non-else, tap-triggered transition of the choice witness. -/
def witChoiceT1 : NavTransitionDoc :=
  { id := "t1", target := "a", targetContext := none, trigger := some "tap" }

/-- First `else:true` transition of the choice witness. -/
def witChoiceT2 : NavTransitionDoc :=
  { id := "t2", target := "a", targetContext := none, elseFlag := true }

/-- Second `else:true` transition of the choice witness. -/
def witChoiceT3 : NavTransitionDoc :=
  { id := "t3", target := "a", targetContext := none, elseFlag := true }

/-- A choice screen with one guardless tap transition and two `else:true`
transitions. -/
def witChoiceScreen : NavScreenDoc :=
  { id := "decide", name := "Decide", kind := some "choice"
    transitions := [witChoiceT1, witChoiceT2, witChoiceT3] }

/-- The navigation file holding `witChoiceScreen`. -/
def witChoiceFile : NavFile :=
  { path := "choice.flow.yaml", group := "", screen := some witChoiceScreen }

/-- The number of navigation documents whose screen object produces the
given composite screen key (the characterization the duplicate check is
proved against). -/
def navKeyCount (files : List NavFile) (k : String) : Nat :=
  (files.filter fun f =>
    match f.screen with
    | some sc => screenKey sc.id sc.context == k
    | none => false).length

/-! ## Theorems -/

/-- C10: running the validation engine twice on the same unchanged input
yields diagnostic lists that are identical element for element — the engine
is a pure function of its input document set (the embedding has no source
of nondeterminism: JS map and set iteration in insertion order is modelled
by order-preserving lists). -/
theorem c10_idempotent (inp : ValidateInput) (r1 r2 : ValidationResult)
    (h1 : r1 = validate inp) (h2 : r2 = validate inp) :
    r1.diagnostics = r2.diagnostics := by
  subst h1
  subst h2
  rfl

/-- Witness for C10 at a concrete run. -/
theorem c10_idempotent_witness :
    validate cexWarnRunInput = validate cexWarnRunInput ∧
      (validate cexWarnRunInput).diagnostics = (validate cexWarnRunInput).diagnostics :=
  ⟨rfl, c10_idempotent cexWarnRunInput (validate cexWarnRunInput) (validate cexWarnRunInput)
    rfl rfl⟩

/-- C1 counterexample: a validation run (existing, parseable contract, no
state files) whose CLI exit code under the default `failOnWarnings = true`
is 1 although the diagnostics list contains no error-level diagnostic, so
the overall result is not a function of error presence alone. -/
theorem c1_counterexample :
    reportAndCode (validate cexWarnRunInput).diagnostics (parseFailOnWarnings ["validate"]) = 1 ∧
      ((validate cexWarnRunInput).diagnostics.all fun d =>
        d.level != DiagnosticLevel.error) = true :=
  ⟨rfl, rfl⟩

/-- Helper: the filtered-by-level list is non-empty iff a diagnostic of the
level exists. -/
theorem filter_level_length_ne (ds : List Diagnostic) (lv : DiagnosticLevel) :
    ((ds.filter fun d => d.level == lv).length ≠ 0) ↔ ∃ d ∈ ds, d.level = lv := by
  rw [ne_eq, List.length_eq_zero]
  constructor
  · intro h
    obtain ⟨d, hd⟩ := List.exists_mem_of_ne_nil _ h
    rw [List.mem_filter] at hd
    exact ⟨d, hd.1, by simpa using hd.2⟩
  · rintro ⟨d, hd, hl⟩ h
    have hmem : d ∈ ds.filter fun x => x.level == lv :=
      List.mem_filter.mpr ⟨hd, by simp [hl]⟩
    rw [h] at hmem
    exact absurd hmem (List.not_mem_nil d)

/-- C1 amended: the run fails (exit code 1) iff an error-level diagnostic
exists, or `failOnWarnings` is set (the CLI default) and a warning-level
diagnostic exists; info-level diagnostics never affect the exit code. -/
theorem c1_amended (ds : List Diagnostic) (b : Bool) :
    reportAndCode ds b = 1 ↔
      ((∃ d ∈ ds, d.level = DiagnosticLevel.error) ∨
        (b = true ∧ ∃ d ∈ ds, d.level = DiagnosticLevel.warning)) := by
  have herr := filter_level_length_ne ds DiagnosticLevel.error
  have hwarn := filter_level_length_ne ds DiagnosticLevel.warning
  unfold reportAndCode
  by_cases he : (ds.filter fun d => d.level == DiagnosticLevel.error).length ≠ 0
  · rw [if_pos he]
    exact ⟨fun _ => Or.inl (herr.mp he), fun _ => rfl⟩
  · rw [if_neg he]
    by_cases hw : (ds.filter fun d => d.level == DiagnosticLevel.warning).length ≠ 0
    · cases b with
      | true =>
        rw [if_pos (by simp [hw])]
        exact ⟨fun _ => Or.inr ⟨rfl, hwarn.mp hw⟩, fun _ => rfl⟩
      | false =>
        rw [if_neg (by simp)]
        constructor
        · intro h
          exact absurd h (by omega)
        · rintro (h | ⟨hb, _⟩)
          · exact absurd (herr.mpr h) he
          · exact absurd hb (by simp)
    · rw [if_neg (by simp [hw])]
      constructor
      · intro h
        exact absurd h (by omega)
      · rintro (h | ⟨_, h⟩)
        · exact absurd (herr.mpr h) he
        · exact absurd (hwarn.mpr h) hw

/-- C2 counterexample: a validation run whose final diagnostics list
contains a warning-level diagnostic (`L4_NO_FILES`, from the contract
resolution stage), so the produced levels are not confined to error and
info. -/
theorem c2_counterexample :
    ((validate cexWarnRunInput).diagnostics.any fun d =>
        d.level == DiagnosticLevel.warning) = true ∧
      ((validate cexWarnRunInput).diagnostics.any fun d =>
        d.code == "L4_NO_FILES" && d.level == DiagnosticLevel.warning) = true :=
  ⟨rfl, rfl⟩

/-- C3 counterexample: a UI action on screen `home` whose id matches only a
transition declared on the different screen `other[x]` produces no
diagnostic at all, although no transition with that id exists on `home`
itself — the check is against the global transition-id set, not the
per-screen one. -/
theorem c3_counterexample :
    validateL3L2Cross [cexActionHome] [cexTransitionOther] = [] ∧
      cexTransitionOther.fromKey ≠ screenKey cexActionHome.screenId cexActionHome.context ∧
      cexTransitionOther.label = cexActionHome.action := by
  refine ⟨rfl, ?_, rfl⟩
  decide

/-- C3 amended: for every UI action, the error diagnostic naming it is
produced iff its `actionId` is absent from the global set of transition ids
of the whole navigation layer (matching a transition declared on any screen
suffices; the source screen is not consulted). -/
theorem c3_amended (uiActions : List UIAction) (transitions : List Transition)
    (a : UIAction) (ha : a ∈ uiActions) :
    l3ActionNotInL2 a.action a.screenId a.context a.componentId ∈
        validateL3L2Cross uiActions transitions ↔
      (globalTransitionIds transitions).contains a.action = false := by
  constructor
  · intro h
    simp only [validateL3L2Cross, List.mem_filterMap] at h
    obtain ⟨b, _, heq⟩ := h
    cases hc : (globalTransitionIds transitions).contains b.action with
    | true =>
      rw [hc] at heq
      simp at heq
    | false =>
      rw [hc] at heq
      simp only [Bool.false_eq_true, if_false, Option.some.injEq] at heq
      have hact : b.action = a.action := by
        simp only [l3ActionNotInL2, Diagnostic.mk.injEq, List.cons.injEq, Prod.mk.injEq,
          MetaVal.str.injEq] at heq
        tauto
      rw [← hact]
      exact hc
  · intro hc
    simp only [validateL3L2Cross, List.mem_filterMap]
    refine ⟨a, ha, ?_⟩
    rw [hc]
    simp

/-- Witness for C3 (amended) at a concrete action with no transitions. -/
theorem c3_amended_witness :
    cexActionHome ∈ [cexActionHome] ∧
      (l3ActionNotInL2 cexActionHome.action cexActionHome.screenId cexActionHome.context
          cexActionHome.componentId ∈
          validateL3L2Cross [cexActionHome] ([] : List Transition) ↔
        (globalTransitionIds ([] : List Transition)).contains cexActionHome.action = false) :=
  ⟨List.mem_singleton.mpr rfl,
   c3_amended [cexActionHome] [] cexActionHome (List.mem_singleton.mpr rfl)⟩

/-- C9 (spec-modelled): on a choice-kind screen, a guardless non-else
outgoing transition, a second-or-later `else:true` transition, and a
tap-triggered outgoing transition are each flagged, and every diagnostic of
the choice policy is error-level. -/
theorem c9_choice_policy (files : List NavFile) (f : NavFile) (sc : NavScreenDoc)
    (t : NavTransitionDoc) (hf : f ∈ files) (hs : f.screen = some sc)
    (hk : sc.kind = some "choice") (ht : t ∈ sc.transitions) :
    ((strTruthy t.guard = false ∧ t.elseFlag = false) →
        choiceNeedsGuardDiag (screenKey sc.id sc.context) t.id ∈ validateChoicePolicy files) ∧
      (t ∈ (sc.transitions.filter fun x => x.elseFlag).drop 1 →
        choiceExtraElseDiag (screenKey sc.id sc.context) t.id ∈ validateChoicePolicy files) ∧
      (t.trigger = some "tap" →
        choiceTapDiag (screenKey sc.id sc.context) t.id ∈ validateChoicePolicy files) ∧
      (∀ d ∈ validateChoicePolicy files, d.level = DiagnosticLevel.error) := by
  have hmemOf : ∀ d : Diagnostic,
      d ∈ ((sc.transitions.filterMap fun x =>
            if !strTruthy x.guard && !x.elseFlag then
              some (choiceNeedsGuardDiag (screenKey sc.id sc.context) x.id)
            else none) ++
          (((sc.transitions.filter fun x => x.elseFlag).drop 1).map fun x =>
            choiceExtraElseDiag (screenKey sc.id sc.context) x.id) ++
          (sc.transitions.filterMap fun x =>
            if x.trigger == some "tap" then
              some (choiceTapDiag (screenKey sc.id sc.context) x.id)
            else none)) →
      d ∈ validateChoicePolicy files := by
    intro d hd
    simp only [validateChoicePolicy, List.mem_flatMap]
    refine ⟨f, hf, ?_⟩
    rw [hs]
    simp only [hk]
    simpa using hd
  refine ⟨?_, ?_, ?_, ?_⟩
  · rintro ⟨hg, helse⟩
    apply hmemOf
    apply List.mem_append_left
    apply List.mem_append_left
    exact List.mem_filterMap.mpr ⟨t, ht, by simp [hg, helse]⟩
  · intro hdrop
    apply hmemOf
    apply List.mem_append_left
    apply List.mem_append_right
    exact List.mem_map.mpr ⟨t, hdrop, rfl⟩
  · intro htap
    apply hmemOf
    apply List.mem_append_right
    exact List.mem_filterMap.mpr ⟨t, ht, by simp [htap]⟩
  · intro d hd
    simp only [validateChoicePolicy, List.mem_flatMap] at hd
    obtain ⟨g, _, hgd⟩ := hd
    rcases hgs : g.screen with _ | gsc
    · rw [hgs] at hgd
      exact absurd hgd (List.not_mem_nil d)
    · rw [hgs] at hgd
      by_cases hgk : (gsc.kind == some "choice") = true
      · simp only [hgk, if_true, List.mem_append, List.mem_filterMap, List.mem_map] at hgd
        rcases hgd with (⟨x, _, hx⟩ | ⟨x, _, hx⟩) | ⟨x, _, hx⟩
        · by_cases hcond : (!strTruthy x.guard && !x.elseFlag) = true
          · rw [if_pos hcond] at hx
            rw [← Option.some.injEq .. |>.mp hx]
            rfl
          · rw [if_neg hcond] at hx
            exact absurd hx (by simp)
        · rw [← hx]
          rfl
        · by_cases hcond : (x.trigger == some "tap") = true
          · rw [if_pos hcond] at hx
            rw [← Option.some.injEq .. |>.mp hx]
            rfl
          · rw [if_neg hcond] at hx
            exact absurd hx (by simp)
      · simp [hgk] at hgd

/-- Witness for C9 at the concrete choice screen, exercising the guardless
tap transition. -/
theorem c9_choice_policy_witness :
    witChoiceFile ∈ [witChoiceFile] ∧
      witChoiceFile.screen = some witChoiceScreen ∧
      witChoiceScreen.kind = some "choice" ∧
      witChoiceT1 ∈ witChoiceScreen.transitions ∧
      (strTruthy witChoiceT1.guard = false ∧ witChoiceT1.elseFlag = false →
        choiceNeedsGuardDiag (screenKey witChoiceScreen.id witChoiceScreen.context)
          witChoiceT1.id ∈ validateChoicePolicy [witChoiceFile]) ∧
      (witChoiceT1.trigger = some "tap" →
        choiceTapDiag (screenKey witChoiceScreen.id witChoiceScreen.context)
          witChoiceT1.id ∈ validateChoicePolicy [witChoiceFile]) := by
  have h := c9_choice_policy [witChoiceFile] witChoiceFile witChoiceScreen witChoiceT1
    (List.mem_singleton.mpr rfl) rfl rfl (by decide)
  exact ⟨List.mem_singleton.mpr rfl, rfl, rfl, by decide, h.1, h.2.2.1⟩

/-- C5: a transition whose target id has two or more registered variants and
which declares no target context resolves to the ambiguous-target error —
it contributes no edge, and the error diagnostic is among the graph
builder's errors (a default variant is never selected). -/
theorem c5_ambiguous_target (files : List NavFile) (config : MobileSpecConfig)
    (f : NavFile) (sc : NavScreenDoc) (t : NavTransitionDoc)
    (hf : f ∈ files) (hs : f.screen = some sc) (ht : t ∈ sc.transitions)
    (hv : 2 ≤ ((mapGet? (collectVariants files config) t.target).getD []).length)
    (hc : strTruthy t.targetContext = false) :
    resolveTransitionTarget (collectVariants files config) (navFromKey sc) t =
        .inl (ambiguousTarget t.target
          (joinSep ", " (((mapGet? (collectVariants files config) t.target).getD []).map
            fun s => displayId s.id s.context))
          (navFromKey sc) t.id) ∧
      (∀ e : Transition,
        resolvedEdge? (resolveTransitionTarget (collectVariants files config)
          (navFromKey sc) t) ≠ some e) ∧
      ambiguousTarget t.target
          (joinSep ", " (((mapGet? (collectVariants files config) t.target).getD []).map
            fun s => displayId s.id s.context))
          (navFromKey sc) t.id ∈
        (collectScreensAndTransitions files config).errors := by
  rcases hxs : (mapGet? (collectVariants files config) t.target).getD [] with _ | ⟨x, tl⟩
  · rw [hxs] at hv
    simp at hv
  · rcases htl : tl with _ | ⟨y, rest⟩
    · rw [hxs, htl] at hv
      simp at hv
    · subst htl
      have hres : resolveTransitionTarget (collectVariants files config) (navFromKey sc) t =
          .inl (ambiguousTarget t.target
            (joinSep ", " ((x :: y :: rest).map fun s => displayId s.id s.context))
            (navFromKey sc) t.id) := by
        simp only [resolveTransitionTarget]
        rw [hxs, hc]
        simp
      refine ⟨hres, ?_, ?_⟩
      · intro e
        rw [hres]
        simp [resolvedEdge?]
      · simp only [collectScreensAndTransitions, CollectResult.mk.injEq]
        apply List.mem_append_right
        simp only [List.mem_flatMap]
        refine ⟨f, hf, ?_⟩
        rw [hs]
        exact List.mem_filterMap.mpr ⟨t, ht, by rw [hres]; rfl⟩

/-- Witness for C5 at the concrete two-variant target. -/
theorem c5_ambiguous_target_witness :
    cexNavC ∈ [cexNavB1, cexNavB2, cexNavC] ∧
      2 ≤ ((mapGet? (collectVariants [cexNavB1, cexNavB2, cexNavC] {})
        "b").getD []).length ∧
      ambiguousTarget "b"
          (joinSep ", " (((mapGet? (collectVariants [cexNavB1, cexNavB2, cexNavC] {})
            "b").getD []).map fun s => displayId s.id s.context))
          "c" "go" ∈
        (collectScreensAndTransitions [cexNavB1, cexNavB2, cexNavC] {}).errors := by
  have h := c5_ambiguous_target [cexNavB1, cexNavB2, cexNavC] {} cexNavC
    { id := "c", name := "C"
      transitions := [{ id := "go", target := "b", targetContext := none }] }
    { id := "go", target := "b", targetContext := none }
    (by decide) rfl (by decide) (by decide) (by decide)
  exact ⟨by decide, by decide, h.2.2⟩

/-- C6: when at least one screen is marked entry and every registered screen
key is in the set the breadth-first traversal reaches from the entry set,
the reachability analysis produces only info-level diagnostics (in
particular zero errors and no non-termination on cycles, the traversal
being bounded). -/
theorem c6_all_reachable_no_errors (screens : List (String × Screen))
    (transitions : List Transition)
    (hentry : ∃ p ∈ screens, p.2.entry = true)
    (hreach : ∀ p ∈ screens,
      (bfsReachable ((screens.filter fun q => q.2.entry).map fun q => q.1)
        transitions).contains p.1 = true) :
    ∀ d ∈ validateTransitions screens transitions, d.level = DiagnosticLevel.info := by
  intro d hd
  have hfil : (screens.filter fun p =>
      !((bfsReachable ((screens.filter fun q => q.2.entry).map fun q => q.1)
        transitions).contains p.1)) = [] := by
    rw [List.filter_eq_nil_iff]
    intro p hp
    rw [hreach p hp]
    simp
  simp only [validateTransitions] at hd
  rw [hfil] at hd
  simp only [List.map_nil, List.isEmpty_nil, if_true, List.append_nil] at hd
  rcases hE : (screens.filter fun q => q.2.entry).map fun q => q.1 with _ | ⟨k, tl⟩
  · obtain ⟨p, hp, hpe⟩ := hentry
    have hpf : p ∈ screens.filter fun q => q.2.entry :=
      List.mem_filter.mpr ⟨hp, by simp [hpe]⟩
    have : p.1 ∈ (screens.filter fun q => q.2.entry).map fun q => q.1 :=
      List.mem_map.mpr ⟨p, hpf, rfl⟩
    rw [hE] at this
    exact absurd this (List.not_mem_nil p.1)
  · rw [hE] at hd
    rcases htl : tl with _ | ⟨k2, tl2⟩
    · rw [htl] at hd
      simp only [List.mem_append, List.mem_singleton] at hd
      rcases hd with hd | hd
      · rw [hd]
      · rcases hno : ((screens.filter fun p =>
          !p.2.exit && !((transitions.foldl (fun s t => setAdd s t.fromKey) []).contains
            p.1)).map fun p => (p.1, displayId p.2.id p.2.context)).isEmpty
        · rw [hno] at hd
          simp at hd
          rw [hd]
        · rw [hno] at hd
          simp at hd
    · rw [htl] at hd
      simp only [List.mem_append, List.mem_singleton] at hd
      rcases hd with hd | hd
      · rw [hd]
      · rcases hno : ((screens.filter fun p =>
          !p.2.exit && !((transitions.foldl (fun s t => setAdd s t.fromKey) []).contains
            p.1)).map fun p => (p.1, displayId p.2.id p.2.context)).isEmpty
        · rw [hno] at hd
          simp at hd
          rw [hd]
        · rw [hno] at hd
          simp at hd

/-- Witness for C6 at the concrete two-screen flow `home → tasks`. -/
theorem c6_all_reachable_no_errors_witness :
    (∃ p ∈ witScreens, p.2.entry = true) ∧
      (∀ p ∈ witScreens,
        (bfsReachable ((witScreens.filter fun q => q.2.entry).map fun q => q.1)
          witTransitions).contains p.1 = true) ∧
      ∀ d ∈ validateTransitions witScreens witTransitions,
        d.level = DiagnosticLevel.info :=
  ⟨by decide, by decide,
   c6_all_reachable_no_errors witScreens witTransitions (by decide) (by decide)⟩

/-- C7 counterexample: a reference whose operation's root keys resolved
successfully to `{items}` and whose `selectRoot` is the absent key `foo`
produces a warning-level `L4_INVALID_SELECT_ROOT` diagnostic and no
error-level diagnostic at all — not the error level the claim states (and
an unresolved schema likewise yields a warning, not an info note). -/
theorem c7_counterexample :
    ((openapiCheck { checkSelectRoot := true } cexOAInput).all fun d =>
        d.level != DiagnosticLevel.error) = true ∧
      ((openapiCheck { checkSelectRoot := true } cexOAInput).any fun d =>
        d.code == "L4_INVALID_SELECT_ROOT" && d.level == DiagnosticLevel.warning) = true ∧
      mapGet? (collectOperationIdsFromOpenApi cexOADoc).rootKeysByOpId "getTasks" =
        some (.keys ["items"]) ∧
      (["items"].contains "foo") = false :=
  ⟨rfl, rfl, rfl, rfl⟩

/-- C7 amended: for a reference to a registered operation under
`checkSelectRoot`, a declared selectRoot absent from the successfully
resolved root-key set yields the warning-level mismatch diagnostic, and an
unresolved root-key set yields the warning-level unresolved diagnostic —
both warnings, neither error nor info. -/
theorem c7_amended (opts : OpenapiCheckOpts) (inp : OpenapiCheckInput) (doc : OADoc)
    (r : L4Ref) (sel : String)
    (hparse : inp.parse = .inr doc)
    (hcs : opts.checkSelectRoot = true)
    (hr : r ∈ (collectOperationIdRefsFromL4 inp.l4Files).1)
    (hop : (collectOperationIdsFromOpenApi doc).opIds.contains r.operationId = true)
    (hsel : r.selectRoot = some sel) (hne : sel ≠ "") :
    (∀ ks, mapGet? (collectOperationIdsFromOpenApi doc).rootKeysByOpId r.operationId =
        some (.keys ks) → ks.contains sel = false →
      selectRootMismatchDiag r sel ks ∈ openapiCheck opts inp ∧
        (selectRootMismatchDiag r sel ks).level = DiagnosticLevel.warning) ∧
      (∀ reason, mapGet? (collectOperationIdsFromOpenApi doc).rootKeysByOpId r.operationId =
          some (.unresolved reason) →
        schemaUnresolvedDiag r reason ∈ openapiCheck opts inp ∧
          (schemaUnresolvedDiag r reason).level = DiagnosticLevel.warning) := by
  have hfne : inp.l4Files.isEmpty = false := by
    rcases hl : inp.l4Files with _ | _
    · rw [hl] at hr
      simp [collectOperationIdRefsFromL4] at hr
    · rfl
  have htruthy : strTruthy r.selectRoot = true := by
    rw [hsel]
    simpa [strTruthy] using hne
  have hmem : ∀ d : Diagnostic,
      d ∈ refDiagnostics opts (collectOperationIdsFromOpenApi doc).opIds
            (collectOperationIdsFromOpenApi doc).rootKeysByOpId r →
      d ∈ openapiCheck opts inp := by
    intro d hd
    simp only [openapiCheck, hparse, hfne, Bool.false_eq_true, if_false]
    apply List.mem_append_left
    apply List.mem_append_right
    exact List.mem_flatMap.mpr ⟨r, hr, hd⟩
  constructor
  · intro ks hks hcon
    refine ⟨hmem _ ?_, rfl⟩
    simp only [refDiagnostics, hop, Bool.not_true, Bool.false_eq_true, if_false, hcs,
      htruthy, Bool.and_self, if_true, hks]
    have hnotmem : sel ∉ ks := by simpa using hcon
    simp [hsel, hnotmem]
  · intro reason hks
    refine ⟨hmem _ ?_, rfl⟩
    simp only [refDiagnostics, hop, Bool.not_true, Bool.false_eq_true, if_false, hcs,
      htruthy, Bool.and_self, if_true, hks]
    simp

/-- Witness for C7 (amended) at the concrete mismatching reference. -/
theorem c7_amended_witness :
    cexOAInput.parse = Sum.inr cexOADoc ∧
      cexOARef ∈ (collectOperationIdRefsFromL4 cexOAInput.l4Files).1 ∧
      (collectOperationIdsFromOpenApi cexOADoc).opIds.contains cexOARef.operationId = true ∧
      cexOARef.selectRoot = some "foo" ∧
      (∀ ks, mapGet? (collectOperationIdsFromOpenApi cexOADoc).rootKeysByOpId
          cexOARef.operationId = some (.keys ks) → ks.contains "foo" = false →
        selectRootMismatchDiag cexOARef "foo" ks ∈
            openapiCheck { checkSelectRoot := true } cexOAInput ∧
          (selectRootMismatchDiag cexOARef "foo" ks).level = DiagnosticLevel.warning) := by
  have h := c7_amended { checkSelectRoot := true } cexOAInput cexOADoc cexOARef "foo"
    rfl rfl (by decide) (by decide) rfl (by decide)
  exact ⟨rfl, by decide, by decide, rfl, h.1⟩

/-- Helper: `mapSet` never produces the empty map. -/
theorem mapSet_ne_nil (m : List (String × α)) (k : String) (v : α) :
    mapSet m k v ≠ [] := by
  unfold mapSet
  by_cases h : mapHas m k = true
  · rw [if_pos h]
    intro hnil
    rw [List.map_eq_nil_iff] at hnil
    rw [hnil] at h
    simp [mapHas] at h
  · rw [if_neg h]
    simp

/-- Helper: one bucket step yields the empty bucket iff the accumulator was
empty and the document contributed no items. -/
theorem bucketStep_eq_nil (items : L4Details → List α) (acc : List (String × List α))
    (p : String × L4Details) :
    bucketStep items acc p = [] ↔ acc = [] ∧ items p.2 = [] := by
  unfold bucketStep
  by_cases h : (items p.2).isEmpty = true
  · rw [if_pos h]
    rw [List.isEmpty_iff] at h
    simp [h]
  · rw [if_neg h]
    constructor
    · intro hnil
      exact absurd hnil (mapSet_ne_nil _ _ _)
    · rintro ⟨-, hit⟩
      rw [List.isEmpty_iff] at h
      exact absurd hit h

/-- Helper: the bucket aggregation is empty iff the accumulator was empty
and no document contributed items. -/
theorem bucketFoldAux_eq_nil (items : L4Details → List α) :
    ∀ (l : List (String × L4Details)) (acc : List (String × List α)),
      bucketFoldAux items acc l = [] ↔ acc = [] ∧ ∀ p ∈ l, items p.2 = [] := by
  intro l
  induction l with
  | nil => simp [bucketFoldAux]
  | cons p rest ih =>
    intro acc
    rw [bucketFoldAux, ih, bucketStep_eq_nil]
    constructor
    · rintro ⟨⟨ha, hp⟩, hrest⟩
      exact ⟨ha, by
        intro q hq
        rcases List.mem_cons.mp hq with hq | hq
        · rw [hq]; exact hp
        · exact hrest q hq⟩
    · rintro ⟨ha, hall⟩
      exact ⟨⟨ha, hall p (List.mem_cons_self ..)⟩,
        fun q hq => hall q (List.mem_cons_of_mem _ hq)⟩

/-- Helper: the full bucket is empty iff no document contributed items. -/
theorem bucketFold_eq_nil (items : L4Details → List α) (l : List (String × L4Details)) :
    bucketFold items l = [] ↔ ∀ p ∈ l, items p.2 = [] := by
  rw [bucketFold, bucketFoldAux_eq_nil]
  simp

/-- C4: the event cross check emits an error-level `L4_UNKNOWN_QUERY`
diagnostic iff some state document has a `callQuery` event whose query name
is absent from that same document's declared query set, and an error-level
`L4_UNKNOWN_MUTATION` diagnostic iff some document's `callMutation`
references a name absent from its own mutation set; with every reference
present, zero such errors are produced. -/
theorem c4_unknown_refs (l4Details : List (String × L4Details))
    (transitions : List Transition) (screens : List (String × Screen)) :
    ((∃ d ∈ validateL4EventsCross l4Details transitions screens,
        d.code = "L4_UNKNOWN_QUERY" ∧ d.level = DiagnosticLevel.error) ↔
      ∃ p ∈ l4Details, unknownQueryItems p.2 ≠ []) ∧
      ((∃ d ∈ validateL4EventsCross l4Details transitions screens,
          d.code = "L4_UNKNOWN_MUTATION" ∧ d.level = DiagnosticLevel.error) ↔
        ∃ p ∈ l4Details, unknownMutationItems p.2 ≠ []) := by
  constructor
  · constructor
    · rintro ⟨d, hd, hcode, -⟩
      simp only [validateL4EventsCross, List.mem_append] at hd
      rcases hd with ((hd | hd) | hd) | hd
      · by_cases h : (bucketFold (fun d =>
            missingHandlerItems ((mapGet? (transitionIdsByScreenKey transitions)
              d.screenKey).getD []) d) l4Details).isEmpty = true
        · rw [if_pos h] at hd
          exact absurd hd (List.not_mem_nil d)
        · rw [if_neg h] at hd
          rw [List.mem_singleton] at hd
          rw [hd] at hcode
          simp at hcode
      · by_cases h : (bucketFold (fun d =>
            staleEventKeyItems ((mapGet? (transitionIdsByScreenKey transitions)
              d.screenKey).getD []) d) l4Details).isEmpty = true
        · rw [if_pos h] at hd
          exact absurd hd (List.not_mem_nil d)
        · rw [if_neg h] at hd
          rw [List.mem_singleton] at hd
          rw [hd] at hcode
          simp at hcode
      · by_cases h : (bucketFold unknownQueryItems l4Details).isEmpty = true
        · rw [if_pos h] at hd
          exact absurd hd (List.not_mem_nil d)
        · rw [if_neg h] at hd
          rw [List.isEmpty_iff] at h
          have := (bucketFold_eq_nil unknownQueryItems l4Details).not.mp h
          push_neg at this
          obtain ⟨p, hp, hne⟩ := this
          exact ⟨p, hp, hne⟩
      · by_cases h : (bucketFold unknownMutationItems l4Details).isEmpty = true
        · rw [if_pos h] at hd
          exact absurd hd (List.not_mem_nil d)
        · rw [if_neg h] at hd
          rw [List.mem_singleton] at hd
          rw [hd] at hcode
          simp at hcode
    · rintro ⟨p, hp, hne⟩
      have hbne : bucketFold unknownQueryItems l4Details ≠ [] := by
        intro h
        exact hne ((bucketFold_eq_nil unknownQueryItems l4Details).mp h p hp)
      have hie : (bucketFold unknownQueryItems l4Details).isEmpty = false := by
        rcases he : (bucketFold unknownQueryItems l4Details).isEmpty
        · rfl
        · rw [List.isEmpty_iff] at he
          exact absurd he hbne
      simp only [validateL4EventsCross, List.mem_append]
      rw [hie]
      simp only [Bool.false_eq_true, if_false]
      exact ⟨_, Or.inl (Or.inr (List.mem_singleton.mpr rfl)), rfl, rfl⟩
  · constructor
    · rintro ⟨d, hd, hcode, -⟩
      simp only [validateL4EventsCross, List.mem_append] at hd
      rcases hd with ((hd | hd) | hd) | hd
      · by_cases h : (bucketFold (fun d =>
            missingHandlerItems ((mapGet? (transitionIdsByScreenKey transitions)
              d.screenKey).getD []) d) l4Details).isEmpty = true
        · rw [if_pos h] at hd
          exact absurd hd (List.not_mem_nil d)
        · rw [if_neg h] at hd
          rw [List.mem_singleton] at hd
          rw [hd] at hcode
          simp at hcode
      · by_cases h : (bucketFold (fun d =>
            staleEventKeyItems ((mapGet? (transitionIdsByScreenKey transitions)
              d.screenKey).getD []) d) l4Details).isEmpty = true
        · rw [if_pos h] at hd
          exact absurd hd (List.not_mem_nil d)
        · rw [if_neg h] at hd
          rw [List.mem_singleton] at hd
          rw [hd] at hcode
          simp at hcode
      · by_cases h : (bucketFold unknownQueryItems l4Details).isEmpty = true
        · rw [if_pos h] at hd
          exact absurd hd (List.not_mem_nil d)
        · rw [if_neg h] at hd
          rw [List.mem_singleton] at hd
          rw [hd] at hcode
          simp at hcode
      · by_cases h : (bucketFold unknownMutationItems l4Details).isEmpty = true
        · rw [if_pos h] at hd
          exact absurd hd (List.not_mem_nil d)
        · rw [if_neg h] at hd
          rw [List.isEmpty_iff] at h
          have := (bucketFold_eq_nil unknownMutationItems l4Details).not.mp h
          push_neg at this
          obtain ⟨p, hp, hne⟩ := this
          exact ⟨p, hp, hne⟩
    · rintro ⟨p, hp, hne⟩
      have hbne : bucketFold unknownMutationItems l4Details ≠ [] := by
        intro h
        exact hne ((bucketFold_eq_nil unknownMutationItems l4Details).mp h p hp)
      have hie : (bucketFold unknownMutationItems l4Details).isEmpty = false := by
        rcases he : (bucketFold unknownMutationItems l4Details).isEmpty
        · rfl
        · rw [List.isEmpty_iff] at he
          exact absurd he hbne
      simp only [validateL4EventsCross, List.mem_append]
      rw [hie]
      simp only [Bool.false_eq_true, if_false]
      exact ⟨_, Or.inr (List.mem_singleton.mpr rfl), rfl, rfl⟩

/-- Helper: the schema-validation stage emits only errors. -/
theorem validateSchema_levels (files : List (String × List (String × String)))
    (schemaPath : String) (schemaPresent : Bool) (label : String) :
    ∀ d ∈ validateSchema files schemaPath schemaPresent label,
      d.level = DiagnosticLevel.error := by
  intro d hd
  unfold validateSchema at hd
  rcases hp : schemaPresent
  · rw [hp] at hd
    simp only [Bool.not_false, if_true, List.mem_singleton] at hd
    rw [hd]
    rfl
  · rw [hp] at hd
    simp only [Bool.not_true, Bool.false_eq_true, if_false, List.mem_flatMap,
      List.mem_map] at hd
    obtain ⟨f, -, e, -, he⟩ := hd
    rw [← he]
    rfl

/-- Helper: a failed transition resolution is always an error diagnostic. -/
theorem resolveTransitionTarget_err_level (variants : List (String × List Screen))
    (fromKey : String) (t : NavTransitionDoc) (d : Diagnostic)
    (h : resolveTransitionTarget variants fromKey t = .inl d) :
    d.level = DiagnosticLevel.error := by
  simp only [resolveTransitionTarget] at h
  repeat' split at h
  all_goals first
    | (cases h; rfl)
    | (injection h with h2; cases h2; rfl)
    | simp at h

/-- Helper: the screen-collection pass only appends error diagnostics. -/
theorem collectScreensPass_err_levels (config : MobileSpecConfig) :
    ∀ (files : List NavFile) (screens : List (String × Screen))
      (variants : List (String × List Screen)) (errs : List Diagnostic),
      (∀ d ∈ errs, d.level = DiagnosticLevel.error) →
      ∀ d ∈ (collectScreensPass config files screens variants errs).2.2,
        d.level = DiagnosticLevel.error := by
  intro files
  induction files with
  | nil =>
    intro screens variants errs he d hd
    exact he d hd
  | cons f rest ih =>
    intro screens variants errs he d hd
    rw [collectScreensPass] at hd
    rcases hfs : f.screen with _ | sc
    · rw [hfs] at hd
      exact ih screens variants errs he d hd
    · rw [hfs] at hd
      by_cases hk : mapHas screens (screenKey sc.id sc.context) = true
      · simp only [hk, if_true] at hd
        refine ih _ _ _ ?_ d hd
        intro x hx
        rcases List.mem_append.mp hx with hx | hx
        · exact he x hx
        · rw [List.mem_singleton.mp hx]
          rfl
      · simp only [hk, if_false] at hd
        exact ih _ _ _ he d hd

/-- Helper: every graph-builder error diagnostic is error-level. -/
theorem collectScreensAndTransitions_err_levels (files : List NavFile)
    (config : MobileSpecConfig) :
    ∀ d ∈ (collectScreensAndTransitions files config).errors,
      d.level = DiagnosticLevel.error := by
  intro d hd
  simp only [collectScreensAndTransitions, List.mem_append] at hd
  rcases hd with hd | hd
  · exact collectScreensPass_err_levels config files [] [] [] (by simp) d hd
  · simp only [List.mem_flatMap] at hd
    obtain ⟨f, -, hfd⟩ := hd
    rcases hfs : f.screen with _ | sc
    · rw [hfs] at hfd
      exact absurd hfd (List.not_mem_nil d)
    · rw [hfs] at hfd
      obtain ⟨t, -, ht⟩ := List.mem_filterMap.mp hfd
      rcases hr : resolveTransitionTarget (collectVariants files config) (navFromKey sc) t
        with e | e
      · rw [hr] at ht
        have he : e = d := by simpa [resolvedErr?] using ht
        rw [he] at hr
        exact resolveTransitionTarget_err_level _ _ _ _ hr
      · rw [hr] at ht
        simp [resolvedErr?] at ht

/-- Helper: the L3-screen existence check emits only errors. -/
theorem validateL3ScreensExistInL2_levels (uiFiles : List UiFile)
    (l2Screens : List (String × Screen)) :
    ∀ d ∈ validateL3ScreensExistInL2 uiFiles l2Screens,
      d.level = DiagnosticLevel.error := by
  intro d hd
  simp only [validateL3ScreensExistInL2, List.mem_filterMap] at hd
  obtain ⟨f, -, hf⟩ := hd
  repeat' split at hf
  all_goals first
    | (cases hf; rfl)
    | (injection hf with hf2; cases hf2; rfl)
    | simp at hf

/-- Helper: the L3→L2 action cross check emits only errors. -/
theorem validateL3L2Cross_levels (uiActions : List UIAction)
    (transitions : List Transition) :
    ∀ d ∈ validateL3L2Cross uiActions transitions, d.level = DiagnosticLevel.error := by
  intro d hd
  simp only [validateL3L2Cross, List.mem_filterMap] at hd
  obtain ⟨a, -, ha⟩ := hd
  repeat' split at ha
  all_goals first
    | (cases ha; rfl)
    | (injection ha with ha2; cases ha2; rfl)
    | simp at ha

/-- Helper: the L4→L2 screen existence check emits only errors. -/
theorem validateL4L2Cross_levels (stateScreens : List String)
    (l2Screens : List (String × Screen)) :
    ∀ d ∈ validateL4L2Cross stateScreens l2Screens, d.level = DiagnosticLevel.error := by
  intro d hd
  simp only [validateL4L2Cross, List.mem_filterMap] at hd
  obtain ⟨sk, -, hsk⟩ := hd
  repeat' split at hsk
  all_goals first
    | (cases hsk; rfl)
    | (injection hsk with hsk2; cases hsk2; rfl)
    | simp at hsk

/-- Helper: the i18n audit emits only error or info diagnostics. -/
theorem validateI18n_levels (config : MobileSpecConfig)
    (l2Screens : List (String × Screen)) (uiFiles : List UiFile)
    (i18nFiles : List (String × List (String × String))) :
    ∀ d ∈ validateI18n config l2Screens uiFiles i18nFiles,
      d.level = DiagnosticLevel.error ∨ d.level = DiagnosticLevel.info := by
  have hloc : ∀ loc keys d, d ∈ i18nLocaleDiags i18nFiles keys loc →
      d.level = DiagnosticLevel.error ∨ d.level = DiagnosticLevel.info := by
    intro loc keys d hd
    simp only [i18nLocaleDiags, List.mem_flatMap] at hd
    obtain ⟨k, -, hkd⟩ := hd
    repeat' split at hkd
    all_goals first
      | exact absurd hkd (List.not_mem_nil d)
      | (rw [List.mem_singleton.mp hkd]; exact Or.inl rfl)
      | (rw [List.mem_singleton.mp hkd]; exact Or.inr rfl)
  intro d hd
  simp only [validateI18n] at hd
  split at hd
  · exact absurd hd (List.not_mem_nil d)
  · rcases List.mem_append.mp hd with hd | hd
    · split at hd
      · exact absurd hd (List.not_mem_nil d)
      · rw [List.mem_singleton.mp hd]
        exact Or.inl rfl
    · simp only [List.mem_flatMap] at hd
      obtain ⟨loc, -, hk⟩ := hd
      exact hloc loc _ d hk

/-- C2 amended: every diagnostic of the core stages (schema validation,
graph building, reachability, cross-layer checks, aggregation, i18n) is
error- or info-level; the contract-resolution stage is appended last and is
the only stage that can additionally emit warning-level diagnostics. -/
theorem c2_amended (inp : ValidateInput) :
    (∀ d ∈ validateCoreDiagnostics inp,
        d.level = DiagnosticLevel.error ∨ d.level = DiagnosticLevel.info) ∧
      (validate inp).diagnostics =
        validateCoreDiagnostics inp ++ openapiStageDiagnostics inp := by
  refine ⟨?_, rfl⟩
  intro d hd
  simp only [validateCoreDiagnostics, List.mem_append] at hd
  rcases hd with ((((((((((hd | hd) | hd) | hd) | hd) | hd) | hd) | hd) | hd) | hd) | hd)
  · exact Or.inl (validateSchema_levels _ _ _ _ d hd)
  · exact Or.inl (collectScreensAndTransitions_err_levels _ _ d hd)
  · obtain ⟨x, -, hx⟩ := List.mem_map.mp hd
    rw [← hx]
    exact Or.inr rfl
  · split at hd
    · exact absurd hd (List.not_mem_nil d)
    · rw [List.mem_singleton.mp hd]
      exact Or.inr rfl
  · exact Or.inl (validateSchema_levels _ _ _ _ d hd)
  · exact Or.inl (validateL3ScreensExistInL2_levels _ _ d hd)
  · exact Or.inl (validateL3L2Cross_levels _ _ d hd)
  · exact Or.inl (validateSchema_levels _ _ _ _ d hd)
  · exact Or.inl (validateL4L2Cross_levels _ _ d hd)
  · obtain ⟨x, -, hx⟩ := List.mem_map.mp hd
    rw [← hx]
    exact Or.inr rfl
  · exact validateI18n_levels _ _ _ _ d hd

/-- C8 counterexample: two navigation documents whose `(id, context)` pairs
differ — `(a, none)` versus `(a, some "")` — are still reported as a
duplicate, because the empty-string context is truthiness-collapsed into
the same screen key `a`. -/
theorem c8_counterexample :
    ((collectScreensAndTransitions [cexNavA, cexNavA2] {}).errors.any fun d =>
        d.code == "L2_DUPLICATE_SCREEN_ID") = true ∧
      (cexNavA.screen.map fun sc => (sc.id, sc.context)) ≠
        (cexNavA2.screen.map fun sc => (sc.id, sc.context)) := by
  exact ⟨rfl, by decide⟩

/-- Helper: membership through an appended singleton. -/
theorem exists_mem_append_singleton {p : α → Prop} (l : List α) (x : α) :
    (∃ d ∈ l ++ [x], p d) ↔ (∃ d ∈ l, p d) ∨ p x := by
  simp only [List.mem_append, List.mem_singleton]
  constructor
  · rintro ⟨d, hd | hd, hp⟩
    · exact Or.inl ⟨d, hd, hp⟩
    · rw [hd] at hp
      exact Or.inr hp
  · rintro (⟨d, hd, hp⟩ | hp)
    · exact ⟨d, Or.inl hd, hp⟩
    · exact ⟨x, Or.inr rfl, hp⟩

/-- Helper: `mapHas` across an appended singleton. -/
theorem mapHas_append_single (m : List (String × α)) (k0 : String) (v : α) (k : String) :
    mapHas (m ++ [(k0, v)]) k = (mapHas m k || (k0 == k)) := by
  simp [mapHas, List.any_append]

/-- Helper: a false `mapHas` means the key is not among the stored keys. -/
theorem mapHas_eq_false_iff (m : List (String × α)) (k : String) :
    mapHas m k = false ↔ k ∉ m.map fun p => p.1 := by
  simp only [mapHas, List.any_eq_false, List.mem_map]
  constructor
  · rintro h ⟨p, hp, hk⟩
    exact absurd (by simpa using (hk : p.1 = k)) (by simpa using h p hp)
  · intro h p hp
    simp only [beq_iff_eq]
    intro hk
    exact h ⟨p, hp, hk⟩

/-- Helper: the per-document contribution to the key count. -/
theorem navKeyCount_cons (f : NavFile) (rest : List NavFile) (k : String) :
    navKeyCount (f :: rest) k =
      (match f.screen with
       | some sc => if screenKey sc.id sc.context == k then 1 else 0
       | none => 0) + navKeyCount rest k := by
  unfold navKeyCount
  rcases hs : f.screen with _ | sc
  · simp [List.filter_cons, hs]
  · rcases hk : screenKey sc.id sc.context == k
    · simp [List.filter_cons, hs, hk]
    · simp only [List.filter_cons, hs, hk, if_true, List.length_cons]
      omega

/-- Helper: the duplicate diagnostic's `key` metadata is its screen key. -/
theorem metaStr?_duplicateScreenId (key id : String) (ctx : Option String) (k : String) :
    metaStr? (duplicateScreenId key id ctx) "key" = some k ↔ k = key := by
  simp only [metaStr?, duplicateScreenId, mapGet?, List.find?]
  simp [eq_comm]

/-- Helper: the duplicate diagnostic satisfies the duplicate-at-key
predicate exactly for its own key. -/
theorem dup_diag_P (key id : String) (ctx : Option String) (k : String) :
    ((duplicateScreenId key id ctx).code = "L2_DUPLICATE_SCREEN_ID" ∧
        metaStr? (duplicateScreenId key id ctx) "key" = some k) ↔ k = key := by
  rw [metaStr?_duplicateScreenId]
  simp [duplicateScreenId]

/-- Helper: the registry after the collection pass has a key iff the
accumulator had it or some remaining document produces it. -/
theorem collectScreensPass_mapHas (config : MobileSpecConfig) :
    ∀ (files : List NavFile) (screens : List (String × Screen))
      (variants : List (String × List Screen)) (errs : List Diagnostic) (k : String),
      (mapHas (collectScreensPass config files screens variants errs).1 k = true ↔
        (mapHas screens k = true ∨ 1 ≤ navKeyCount files k)) := by
  intro files
  induction files with
  | nil =>
    intro screens variants errs k
    rw [collectScreensPass]
    simp [navKeyCount]
  | cons f rest ih =>
    intro screens variants errs k
    rcases hs : f.screen with _ | sc
    · simp only [collectScreensPass, navKeyCount_cons, hs]
      rw [ih]
      simp
    · simp only [collectScreensPass, navKeyCount_cons, hs]
      by_cases hk0 : mapHas screens (screenKey sc.id sc.context) = true
      · rw [if_pos hk0, ih]
        rcases hkk : screenKey sc.id sc.context == k
        · simp
        · have hk : screenKey sc.id sc.context = k := by simpa using hkk
          rw [hk] at hk0
          have h1 : 1 ≤ 1 + navKeyCount rest k := by omega
          simp [hk0, h1]
      · rw [if_neg hk0, ih, mapHas_append_single]
        rcases hkk : screenKey sc.id sc.context == k
        · simp
        · have h1 : 1 ≤ 1 + navKeyCount rest k := by omega
          simp [h1]

/-- Helper: the collection pass reports a duplicate for key `k` iff one was
already reported, or the accumulator holds `k` and a remaining document
produces it, or at least two remaining documents produce it. -/
theorem collectScreensPass_dup_exists (config : MobileSpecConfig) :
    ∀ (files : List NavFile) (screens : List (String × Screen))
      (variants : List (String × List Screen)) (errs : List Diagnostic) (k : String),
      ((∃ d ∈ (collectScreensPass config files screens variants errs).2.2,
          d.code = "L2_DUPLICATE_SCREEN_ID" ∧ metaStr? d "key" = some k) ↔
        ((∃ d ∈ errs, d.code = "L2_DUPLICATE_SCREEN_ID" ∧ metaStr? d "key" = some k) ∨
          (mapHas screens k = true ∧ 1 ≤ navKeyCount files k) ∨
          2 ≤ navKeyCount files k)) := by
  intro files
  induction files with
  | nil =>
    intro screens variants errs k
    rw [collectScreensPass]
    simp [navKeyCount]
  | cons f rest ih =>
    intro screens variants errs k
    rcases hs : f.screen with _ | sc
    · simp only [collectScreensPass, navKeyCount_cons, hs]
      rw [ih]
      simp
    · simp only [collectScreensPass, navKeyCount_cons, hs]
      by_cases hk0 : mapHas screens (screenKey sc.id sc.context) = true
      · rw [if_pos hk0, ih, exists_mem_append_singleton, dup_diag_P]
        by_cases hkk : (screenKey sc.id sc.context == k) = true
        · have hk : k = screenKey sc.id sc.context := by
            have h2 : screenKey sc.id sc.context = k := by simpa using hkk
            exact h2.symm
          rw [if_pos hkk]
          rw [← hk] at hk0
          simp only [hk, eq_self_iff_true, or_true, true_or, true_iff]
          exact Or.inr (Or.inl ⟨hk ▸ hk0, by omega⟩)
        · have hne : ¬(k = screenKey sc.id sc.context) := by
            intro h
            exact hkk (by simp [h])
          rw [if_neg hkk]
          simp [hne]
      · rw [if_neg hk0, ih, mapHas_append_single]
        by_cases hkk : (screenKey sc.id sc.context == k) = true
        · have hk : screenKey sc.id sc.context = k := by simpa using hkk
          have hmh : mapHas screens k = false := by
            rw [← hk]
            exact Bool.eq_false_iff.mpr hk0
          rw [if_pos hkk, hmh, hkk]
          simp only [Bool.false_or, Bool.false_eq_true, false_and, false_or, true_and,
            eq_self_iff_true, and_true]
          constructor
          · rintro (h | h | h)
            · exact Or.inl h
            · exact Or.inr (by omega)
            · exact Or.inr (by omega)
          · rintro (h | h)
            · exact Or.inl h
            · exact Or.inr (Or.inl (by omega))
        · have hkkf : (screenKey sc.id sc.context == k) = false := Bool.eq_false_iff.mpr hkk
          rw [if_neg hkk, hkkf, Bool.or_false]
          simp

/-- Helper: the registry keys after the collection pass are duplicate-free. -/
theorem collectScreensPass_keys_nodup (config : MobileSpecConfig) :
    ∀ (files : List NavFile) (screens : List (String × Screen))
      (variants : List (String × List Screen)) (errs : List Diagnostic),
      (screens.map fun p => p.1).Nodup →
      ((collectScreensPass config files screens variants errs).1.map fun p => p.1).Nodup := by
  intro files
  induction files with
  | nil =>
    intro screens variants errs h
    rw [collectScreensPass]
    exact h
  | cons f rest ih =>
    intro screens variants errs h
    rcases hs : f.screen with _ | sc
    · simp only [collectScreensPass, hs]
      exact ih _ _ _ h
    · simp only [collectScreensPass, hs]
      by_cases hk0 : mapHas screens (screenKey sc.id sc.context) = true
      · rw [if_pos hk0]
        exact ih _ _ _ h
      · rw [if_neg hk0]
        apply ih
        rw [List.map_append]
        rw [List.nodup_append]
        refine ⟨h, by simp, ?_⟩
        intro a ha hb
        simp only [List.map_cons, List.map_nil, List.mem_singleton] at hb
        rw [hb] at ha
        exact (mapHas_eq_false_iff screens (screenKey sc.id sc.context)).mp
          (Bool.eq_false_iff.mpr hk0) ha

/-- Helper: a failed transition resolution carries the transition-target
code, never the duplicate-screen code. -/
theorem resolveTransitionTarget_err_code (variants : List (String × List Screen))
    (fromKey : String) (t : NavTransitionDoc) (d : Diagnostic)
    (h : resolveTransitionTarget variants fromKey t = .inl d) :
    d.code = "L2_INVALID_TRANSITION_TO" := by
  simp only [resolveTransitionTarget] at h
  repeat' split at h
  all_goals first
    | (cases h; rfl)
    | (injection h with h2; cases h2; rfl)
    | simp at h

/-- C8 amended: a duplicate-screen error naming key `k` is reported iff at
least two navigation documents produce the same screen key `k` (the
truthiness-normalized `id__context` string, not the raw `(id, context)`
pair); the registry holds a screen under `k` iff at least one document
produces `k`, and its keys are duplicate-free, so it holds exactly one
screen per distinct key. -/
theorem c8_amended (files : List NavFile) (config : MobileSpecConfig) (k : String) :
    ((∃ d ∈ (collectScreensAndTransitions files config).errors,
        d.code = "L2_DUPLICATE_SCREEN_ID" ∧ metaStr? d "key" = some k) ↔
      2 ≤ navKeyCount files k) ∧
      (mapHas (collectScreensAndTransitions files config).screens k = true ↔
        1 ≤ navKeyCount files k) ∧
      ((collectScreensAndTransitions files config).screens.map fun p => p.1).Nodup := by
  refine ⟨?_, ?_, ?_⟩
  · constructor
    · rintro ⟨d, hd, hp⟩
      simp only [collectScreensAndTransitions, List.mem_append] at hd
      rcases hd with hd | hd
      · have := (collectScreensPass_dup_exists config files [] [] [] k).mp ⟨d, hd, hp⟩
        simpa [mapHas] using this
      · simp only [List.mem_flatMap] at hd
        obtain ⟨f, -, hfd⟩ := hd
        rcases hfs : f.screen with _ | sc
        · rw [hfs] at hfd
          exact absurd hfd (List.not_mem_nil d)
        · rw [hfs] at hfd
          obtain ⟨t, -, ht⟩ := List.mem_filterMap.mp hfd
          rcases hr : resolveTransitionTarget (collectVariants files config) (navFromKey sc) t
            with e | e
          · rw [hr] at ht
            have he : e = d := by simpa [resolvedErr?] using ht
            rw [he] at hr
            have := resolveTransitionTarget_err_code _ _ _ _ hr
            rw [this] at hp
            exact absurd hp.1 (by decide)
          · rw [hr] at ht
            simp [resolvedErr?] at ht
    · intro h
      have := (collectScreensPass_dup_exists config files [] [] [] k).mpr
        (Or.inr (Or.inr h))
      obtain ⟨d, hd, hp⟩ := this
      refine ⟨d, ?_, hp⟩
      simp only [collectScreensAndTransitions, List.mem_append]
      exact Or.inl hd
  · have := collectScreensPass_mapHas config files [] [] [] k
    simpa [collectScreensAndTransitions, mapHas] using this
  · exact collectScreensPass_keys_nodup config files [] [] [] (by simp)

end MobileSpec
